import Mathlib

/-!
# hono-render: site creation, domain validation and claims synchronisation

A shallow embedding of `src/routes/siteRoutes.js`, `src/models/Site.js`,
`src/models/User.js` and `src/utils/errorHandler.js`, followed by theorems
about the embedded handlers.

JavaScript strings are modelled by Lean `String`s (sequences of Unicode scalar
values).  `String.prototype.length` counts UTF-16 code units and is modelled by
`jsLength`.  The regular expressions of `isValidDomain` only mention ASCII
characters, so matching scalar values instead of code units gives the same
answer.
-/

namespace HonoRender

/-! ## Regular expressions -/

/-- Regular expressions, as far as the literals of `isValidDomain` need them. -/
inductive Re where
  /-- A literal character, e.g. `\.` or `\:`. -/
  | chr (c : Char)
  /-- A literal ASCII letter or sign under the `i` flag. -/
  | chrI (c : Char)
  /-- A character class such as `[a-z0-9-]` or `\d`. -/
  | cls (p : Char → Bool)
  /-- Concatenation. -/
  | seq (a b : Re)
  /-- The quantifier `?`. -/
  | opt (a : Re)
  /-- The quantifiers `{lo,hi}` (with `some hi`) and `{lo,}` (with `none`). -/
  | rep (a : Re) (lo : Nat) (hi : Option Nat)

/-- Every way of cutting a list in two: `(u, v)` with `u ++ v = s`. -/
def splits {α : Type} : List α → List (List α × List α)
  | [] => [([], [])]
  | a :: l => ([], a :: l) :: (splits l).map (fun p => (a :: p.1, p.2))

/-- Between `lo` and `hi` consecutive matches of `t`. -/
def repTest (t : List Char → Bool) : Nat → Nat → List Char → Bool
  | lo, 0, s => lo == 0 && s.isEmpty
  | lo, hi + 1, s =>
      (lo == 0 && s.isEmpty) ||
        (splits s).any (fun p => t p.1 && repTest t (lo - 1) hi p.2)

/-- The whole of `s` is matched by the expression.  For `{lo,}` no more than
`max lo s.length` iterations can contribute, an iteration that matches the
empty string adding nothing. -/
def Re.test : Re → List Char → Bool
  | .chr c, s => s == [c]
  | .chrI c, s =>
      match s with
      | [x] => x.toUpper == c.toUpper
      | _ => false
  | .cls p, s =>
      match s with
      | [x] => p x
      | _ => false
  | .seq a b, s => (splits s).any (fun p => a.test p.1 && b.test p.2)
  | .opt a, s => a.test s || s.isEmpty
  | .rep a lo hi, s => repTest (fun u => a.test u) lo (hi.getD (max lo s.length)) s

/-- Concatenation of a list of expressions. -/
def Re.cat : List Re → Re
  | [] => .rep (.cls (fun _ => false)) 0 (some 0)
  | [r] => r
  | r :: rs => .seq r (Re.cat rs)

/-- The literal characters of a string, one after the other. -/
def Re.lits (s : String) : Re := Re.cat (s.data.map Re.chr)

/-- The literal characters of a string under the `i` flag. -/
def Re.litsI (s : String) : Re := Re.cat (s.data.map Re.chrI)

/-- Pattern `/^r$/.test(s)`: the expression matches the whole input. -/
def testAnchored (r : Re) (s : String) : Bool := r.test s.data

/-- Pattern `/^r/.test(s)`: the expression matches a prefix of the input. -/
def testPrefix (r : Re) (s : String) : Bool :=
  (splits s.data).any (fun p => r.test p.1)

/-- Pattern `/r/.test(s)`: the expression matches somewhere in the input. -/
def testSearch (r : Re) (s : String) : Bool :=
  (splits s.data).any (fun p => (splits p.2).any (fun q => r.test q.1))

/-! ## isValidDomain (siteRoutes.js 459-466, Site.js 73-80) -/

/-- Class `[a-z]`. -/
def clsLower (c : Char) : Bool := decide ('a' ≤ c ∧ c ≤ 'z')

/-- Class `\d`, which in JavaScript is `[0-9]`. -/
def clsDigit (c : Char) : Bool := decide ('0' ≤ c ∧ c ≤ '9')

/-- Class `[a-z0-9]`. -/
def clsAlnum (c : Char) : Bool := clsLower c || clsDigit c

/-- Class `[a-z0-9-]`. -/
def clsLabel (c : Char) : Bool := clsLower c || clsDigit c || c == '-'

/-- Fragment `(?:\:\d{1,5})?`. -/
def rePort : Re := .opt (.seq (.chr ':') (.rep (.cls clsDigit) 1 (some 5)))

/-- Body of `/^https?:\/\//i`. -/
def reScheme : Re :=
  Re.cat [Re.litsI "http", .opt (.chrI 's'), .chrI ':', .chrI '/', .chrI '/']

/-- Body of `/\//`. -/
def reSlash : Re := .chr '/'

/-- Body of `/^[a-z]/`. -/
def reFirstLower : Re := .cls clsLower

/-- Body of `/^localhost(?:\:\d{1,5})?$/`. -/
def reLocalhost : Re := .seq (Re.lits "localhost") rePort

/-- Fragment `[a-z0-9](?:[a-z0-9-]{0,61}[a-z0-9])?`. -/
def reLabel : Re :=
  .seq (.cls clsAlnum) (.opt (.seq (.rep (.cls clsLabel) 0 (some 61)) (.cls clsAlnum)))

/-- Body of `domainRe`:
`/^(?:[a-z0-9](?:[a-z0-9-]{0,61}[a-z0-9])?\.)+[a-z]{2,}(?:\:\d{1,5})?$/`. -/
def domainRe : Re :=
  .seq (.rep (.seq reLabel (.chr '.')) 1 none)
    (.seq (.rep (.cls clsLower) 2 none) rePort)

/-- Function `isValidDomain(domain)`. -/
def isValidDomain (domain : String) : Bool :=
  if domain = "" then false
  else if testPrefix reScheme domain || testSearch reSlash domain then false
  else if !testPrefix reFirstLower domain then false
  else if testAnchored reLocalhost domain then true
  else testAnchored domainRe domain

/-! ## JavaScript string primitives -/

/-- Number of UTF-16 code units of a scalar value. -/
def utf16Units (c : Char) : Nat := if c.val.toNat < 65536 then 1 else 2

/-- Property `String.prototype.length`: the number of UTF-16 code units. -/
def jsLength (s : String) : Nat := (s.data.map utf16Units).sum

/-- White space and line terminators, the characters `String.prototype.trim`
strips. -/
def isJsWhiteSpace (c : Char) : Bool :=
  let n := c.val.toNat
  (9 ≤ n && n ≤ 13) || n == 32 || n == 160 || n == 5760 || (8192 ≤ n && n ≤ 8202) ||
    n == 8232 || n == 8233 || n == 8239 || n == 8287 || n == 12288 || n == 65279

/-- Method `String.prototype.trim`. -/
def jsTrim (s : String) : String :=
  ⟨((s.data.dropWhile isJsWhiteSpace).reverse.dropWhile isJsWhiteSpace).reverse⟩

/-- Method `String.prototype.toLowerCase`.  On a string of ASCII characters it
maps `A-Z` to `a-z` and leaves the rest; on any other string it is the
runtime's Unicode case conversion, taken as the parameter `lowerNonAscii`. -/
def jsToLowerCase (lowerNonAscii : String → String) (s : String) : String :=
  if s.data.all (fun c => decide (c.val.toNat < 128)) then ⟨s.data.map Char.toLower⟩
  else lowerNonAscii s

/-! ## Data model (models/User.js, models/Site.js) -/

/-- A JSON value, as held in the identity provider's custom claims and in
response bodies. -/
inductive Json where
  | null
  | bool (b : Bool)
  | num (n : Int)
  | str (s : String)
  | arr (items : List Json)
  | obj (fields : List (String × Json))

/-- A JSON object: keys with their values. -/
abbrev Claims := List (String × Json)

/-- Value of a key of an object, `none` for `undefined`. -/
def Claims.get (c : Claims) (k : String) : Option Json :=
  (c.find? (fun kv => kv.1 == k)).map (fun kv => kv.2)

/-- Object with one key set: an existing key keeps its place, a new key is
added at the end (the spread `{ ...c, k: v }`). -/
def Claims.set (c : Claims) (k : String) (v : Json) : Claims :=
  if c.any (fun kv => kv.1 == k) then c.map (fun kv => if kv.1 == k then (k, v) else kv)
  else c ++ [(k, v)]

/-- A document of the `User` collection; the quota `maxSites`, a `Number` of the
schema, is an integer. -/
structure User where
  uid : String
  pl : String
  maxSites : Int
  emailNotificationsEnabled : Bool
  pushToken : Option String
  createdAt : String
  updatedAt : String
  deriving DecidableEq, Repr

/-- One element of `Site.domains`. -/
structure Domain where
  value : String
  locked : Bool
  deriving DecidableEq, Repr

/-- A document of the `Site` collection. -/
structure Site where
  userId : String
  siteName : String
  domains : List Domain
  siteType : String
  apiKey : String
  createdAt : String
  updatedAt : String
  deriving DecidableEq, Repr

/-- The two collections of the document store and the identity provider's
custom claims (no entry for an identity whose `customClaims` is undefined). -/
structure World where
  users : List User
  sites : List Site
  claims : List (String × Claims)

/-- What a call takes from outside the store: the runtime's case conversion,
the clock, the random generator and whether the identity provider answers. -/
structure Env where
  /-- Unicode lower-casing of strings that are not pure ASCII. -/
  lowerNonAscii : String → String
  /-- Result of `crypto.randomUUID()`. -/
  randomUUID : String
  /-- The current instant, in the form `toISOString` gives. -/
  now : String
  /-- Call `adminAuth.getUser` throws. -/
  getUserFails : Bool
  /-- Call `adminAuth.setCustomUserClaims` throws. -/
  setClaimsFails : Bool

/-! ## Error responses (utils/errorHandler.js) -/

/-- Table `ERROR_CODES`: status and message of a code. -/
def ERROR_CODES (code : String) : Option (Nat × String) :=
  if code = "INVALID_INPUT" then some (400, "Données d'entrée invalides")
  else if code = "INVALID_DOMAIN" then some (400, "Format de domaine invalide")
  else if code = "INVALID_SITE_TYPE" then some (400, "Type de site non valide")
  else if code = "SITE_NAME_TOO_LONG" then
    some (400, "Le nom du site ne doit pas dépasser 15 caractères")
  else if code = "MISSING_FIELDS" then some (400, "Champs obligatoires manquants")
  else if code = "SITE_NAME_EXISTS" then some (409, "Un site avec ce nom existe déjà")
  else if code = "DOMAIN_ALREADY_EXISTS" then some (409, "Ce domaine est déjà utilisé")
  else if code = "SITE_QUOTA_EXCEEDED" then
    some (403, "Quota de sites atteint pour ce compte")
  else if code = "SERVER_ERROR" then some (500, "Erreur serveur interne")
  else if code = "UNAUTHORIZED" then some (401, "Non autorisé")
  else if code = "FORBIDDEN" then some (403, "Accès refusé")
  else none

/-- The body `createErrorResponse` builds. -/
structure ErrorBody where
  code : String
  message : String
  details : Option String
  deriving DecidableEq, Repr

/-- Function `createErrorResponse(code, details)`; an omitted `details` is the
empty string. -/
def createErrorResponse (code : String) (details : String) : ErrorBody :=
  let errorInfo := (ERROR_CODES code).getD (500, "Erreur serveur interne")
  { code := code, message := errorInfo.2, details := if details = "" then none else some details }

/-- What a handler answers: `c.json(body, status)` with an error body, or
`c.json(body)` with the fields of a success body. -/
inductive Response where
  | error (body : ErrorBody) (httpStatus : Nat)
  | ok (fields : List (String × Json))

/-- The error code of a response, `none` for a success. -/
def Response.code : Response → Option String
  | .error b _ => some b.code
  | .ok _ => none

/-- Field `ERROR_CODES[code].httpStatus`; a status left undefined makes
`c.json` answer 200. -/
def httpStatus (code : String) : Nat :=
  match ERROR_CODES code with
  | some e => e.1
  | none => 200

/-- Answer `c.json(createErrorResponse(code, details), ERROR_CODES[code].httpStatus)`. -/
def errorJson (code : String) (details : String) : Response :=
  .error (createErrorResponse code details) (httpStatus code)

/-! ## The Site model (models/Site.js) -/

/-- The values of the `siteType` enumeration. -/
def siteTypes : List String := ["formulaire", "vitrine", "reservation", "landing", "autres"]

/-- Document `new Site({ userId, siteName, domains, siteType, apiKey })`: the
schema trims `siteName`, trims and lower-cases each `domains.value`, and
`timestamps` sets both dates when the document is saved. -/
def newSite (env : Env) (userId siteName : String) (domains : List Domain)
    (siteType apiKey : String) : Site :=
  { userId := userId
    siteName := jsTrim siteName
    domains := domains.map (fun d =>
      { value := jsTrim (jsToLowerCase env.lowerNonAscii d.value), locked := d.locked })
    siteType := siteType
    apiKey := apiKey
    createdAt := env.now
    updatedAt := env.now }

/-- Schema validation of a Site document: the messages of the validators that
fail (`required` and `maxlength` on `siteName`, `enum` on `siteType`).  The
fields `userId` and `apiKey` are `required` as well; they hold the verified
identity and a fresh UUID, which are never empty. -/
def validateSite (doc : Site) : List String :=
  (if doc.siteName = "" then ["Path `siteName` is required."]
   else if jsLength doc.siteName > 15 then
    ["Path `siteName` (`" ++ doc.siteName ++
      "`) is longer than the maximum allowed length (15)."]
   else []) ++
  (if doc.siteType = "" then ["Path `siteType` is required."]
   else if doc.siteType ∈ siteTypes then []
   else ["`" ++ doc.siteType ++ "` is not a valid enum value for path `siteType`."])

/-- Hook `siteSchema.pre('save')`: the message of the `Error` it throws, if any. -/
def preSave (doc : Site) : Option String :=
  if doc.domains.length = 0 then some "Au moins un domaine est requis"
  else
    match doc.domains.find? (fun d => !isValidDomain d.value) with
    | some d => some ("Domaine invalide: " ++ d.value)
    | none => none

/-- The unique indexes of the collection, on `(userId, siteName)` and on
`apiKey`: does inserting `doc` raise a duplicate-key error? -/
def duplicateKey (sites : List Site) (doc : Site) : Bool :=
  sites.any (fun s => (s.userId == doc.userId && s.siteName == doc.siteName) ||
    s.apiKey == doc.apiKey)

/-- What `site.save()` throws. -/
inductive SaveError where
  /-- A Mongoose `ValidationError` with the messages of its errors. -/
  | validation (messages : List String)
  /-- An `Error` thrown by the `pre('save')` hook. -/
  | hook (message : String)
  /-- A duplicate-key error of the store, `code === 11000`. -/
  | duplicate

/-- Method `site.save()`: validation, then the `pre('save')` hook, then the
insertion into the collection. -/
def saveSite (sites : List Site) (doc : Site) : Except SaveError (List Site) :=
  if validateSite doc ≠ [] then .error (.validation (validateSite doc))
  else
    match preSave doc with
    | some m => .error (.hook m)
    | none =>
      if duplicateKey sites doc then .error .duplicate
      else .ok (sites ++ [doc])

/-- Query `Site.countDocuments({ userId })`. -/
def countSites (sites : List Site) (userId : String) : Nat :=
  (sites.filter (fun s => s.userId == userId)).length

/-- Query `Site.findOne({ 'domains.value': v, 'domains.locked': true })`: a site
with an element of `domains` whose value is `v` and an element of `domains`
that is locked. -/
def findLockedDomain (sites : List Site) (v : String) : Option Site :=
  sites.find? (fun s => s.domains.any (fun d => d.value == v) &&
    s.domains.any (fun d => d.locked == true))

/-! ## The User model (models/User.js) -/

/-- Query `User.findOne({ uid })`. -/
def findUser (users : List User) (uid : String) : Option User :=
  users.find? (fun u => u.uid == uid)

/-- Document `User.create({ uid })` with the defaults of the schema. -/
def defaultUser (env : Env) (uid : String) : User :=
  { uid := uid, pl := "free", maxSites := 2, emailNotificationsEnabled := false,
    pushToken := none, createdAt := env.now, updatedAt := env.now }

/-! ## createSite (siteRoutes.js 278-456) -/

/-- Constant `PUBLIC_API_KEY_PREFIX`, from the value of the environment variable
`GRATIAS_PUBLIC_PREFIX` (`none` when it is not set). -/
def PUBLIC_API_KEY_PREFIX (envVar : Option String) : String :=
  match envVar with
  | some v => if v = "" then "gratias_public_" else v
  | none => "gratias_public_"

/-- The body of a createSite request, with the types the route documents; a
field is `none` when it is absent or `null`.  The handler on a body whose
`domains` is any JSON value is `createSiteRaw` below. -/
structure CreateSiteBody where
  siteName : Option String
  domains : Option (List String)
  siteType : Option String

/-- Truthiness of a string field: present and not the empty string. -/
def truthy (v : Option String) : Bool :=
  match v with
  | some s => s != ""
  | none => false

/-- Expression `domain.trim().toLowerCase()`. -/
def normalizeDomain (env : Env) (domain : String) : String :=
  jsToLowerCase env.lowerNonAscii (jsTrim domain)

/-- Expression `domains.map(domain => ({ value: domain.trim().toLowerCase(),
locked: false }))`. -/
def formatDomains (env : Env) (domains : List String) : List Domain :=
  domains.map (fun domain => { value := normalizeDomain env domain, locked := false })

/-- The loop over `formattedDomains`: the response of the first `return` it
reaches, `none` when it runs to its end. -/
def checkDomains (sites : List Site) : List Domain → Option Response
  | [] => none
  | domain :: rest =>
    if !isValidDomain domain.value then
      some (errorJson "INVALID_DOMAIN" ("Domaine invalide: " ++ domain.value))
    else
      match findLockedDomain sites domain.value with
      | some _ =>
        some (.error
          (createErrorResponse "DOMAIN_ALREADY_EXISTS"
            ("Le domaine " ++ domain.value ++ " est déjà utilisé"))
          (match ERROR_CODES "DOMAIN_ALREADY_EXISTS" with
           | some e => if e.1 = 0 then 409 else e.1
           | none => 409))
      | none => checkDomains sites rest

/-- Custom claims of an identity, `customClaims || {}`. -/
def customClaims (w : World) (uid : String) : Claims :=
  match w.claims.find? (fun e => e.1 == uid) with
  | some e => e.2
  | none => []

/-- Call `adminAuth.setCustomUserClaims(uid, newClaims)`: the claims of the
identity are replaced. -/
def setCustomUserClaims (w : World) (uid : String) (newClaims : Claims) : World :=
  { w with claims :=
      if w.claims.any (fun e => e.1 == uid) then
        w.claims.map (fun e => if e.1 == uid then (uid, newClaims) else e)
      else w.claims ++ [(uid, newClaims)] }

/-- Expression `Array.isArray(claims.msgs) ? [...claims.msgs] : []`. -/
def claimMsgs (claims : Claims) : List Json :=
  match claims.get "msgs" with
  | some (.arr items) => items
  | _ => []

/-- Constant `MAX_MSGS`. -/
def MAX_MSGS : Nat := 20

/-- The message history after the push of `msg` and the cut to the last
`MAX_MSGS` entries (`msgs.slice(-MAX_MSGS)`). -/
def pushMsg (msgs : List Json) (msg : String) : List Json :=
  let msgs := msgs ++ [Json.str msg]
  if msgs.length > MAX_MSGS then msgs.drop (msgs.length - MAX_MSGS) else msgs

/-- The claims createSite writes after a site was saved. -/
def siteCreatedClaims (claims : Claims) (userDoc : User) (newSiteCount : Nat)
    (msg : String) : Claims :=
  (((((claims.set "pl" (.str userDoc.pl)).set "st" (.str "active")).set "maxSites"
    (.num userDoc.maxSites)).set "siteCount" (.num newSiteCount)).set "msg" (.str msg)).set
    "msgs" (.arr (pushMsg (claimMsgs claims) msg))

/-- The `try` block that mirrors a created site into the custom claims; an
exception of the identity provider is caught and leaves the claims as they
were. -/
def syncSiteCreated (env : Env) (w : World) (userId : String) (userDoc : User)
    (siteName : String) (savedSite : Site) (newSiteCount : Nat) : World :=
  if env.getUserFails then w
  else
    let claims := customClaims w userId
    let msg := "success.Site \"" ++ siteName ++ "\" créé le " ++ savedSite.createdAt
    let newClaims := siteCreatedClaims claims userDoc newSiteCount msg
    if env.setClaimsFails then w
    else setCustomUserClaims w userId newClaims

/-- The user document createSite works with: the one found, or the one created
on the fly. -/
def resolveUser (env : Env) (w : World) (userId : String) : User :=
  match findUser w.users userId with
  | some u => u
  | none => defaultUser env userId

/-- The store after `User.findOne` and, when nothing was found, `User.create`. -/
def ensureUser (env : Env) (w : World) (userId : String) : World :=
  match findUser w.users userId with
  | some _ => w
  | none => { w with users := w.users ++ [defaultUser env userId] }

/-- The end of the handler, from the generation of the key on: the document
is built and saved, the sites are counted again, the claims are synchronised
and the response is sent; what `save` throws is answered by the `catch`
block.  (The `Site.findOne` on the name before it only logs its result.) -/
def saveAndRespond (env : Env) (w : World) (userId : String) (userDoc : User)
    (siteName : String) (formattedDomains : List Domain) (siteType : String) :
    World × Response :=
  let rawApiKey := env.randomUUID
  let site := newSite env userId siteName formattedDomains siteType rawApiKey
  match saveSite w.sites site with
  | .error (.validation messages) =>
    (w, errorJson "INVALID_INPUT" (", ".intercalate messages))
  | .error .duplicate => (w, errorJson "SITE_NAME_EXISTS" "")
  | .error (.hook message) => (w, errorJson "SERVER_ERROR" message)
  | .ok sites =>
    let w := { w with sites := sites }
    let newSiteCount := countSites w.sites userId
    let w := syncSiteCreated env w userId userDoc siteName site newSiteCount
    (w, .ok [("data", .str rawApiKey), ("token", .str "reload")])

/-- Handler `router.post('/createSite')` for the verified identity `userId`: the
state after the call and the response. -/
def createSite (env : Env) (w : World) (userId : String) (body : CreateSiteBody) :
    World × Response :=
  let userDoc := resolveUser env w userId
  let w := ensureUser env w userId
  if !truthy body.siteName || body.domains.isNone || !truthy body.siteType then
    (w, errorJson "MISSING_FIELDS" "")
  else
    let siteName := body.siteName.getD ""
    let domains := body.domains.getD []
    let siteType := body.siteType.getD ""
    if jsLength siteName > 15 then (w, errorJson "SITE_NAME_TOO_LONG" "")
    else if !siteTypes.contains siteType then (w, errorJson "INVALID_SITE_TYPE" "")
    else
      let currentSiteCount := countSites w.sites userId
      if (currentSiteCount : Int) ≥ userDoc.maxSites then
        (w, errorJson "SITE_QUOTA_EXCEEDED" "")
      else
        let formattedDomains := formatDomains env domains
        match checkDomains w.sites formattedDomains with
        | some response => (w, response)
        | none => saveAndRespond env w userId userDoc siteName formattedDomains siteType

/-! ## The hostname grammar of the specification (§4.1, rules 4 and 5) -/

/-- Spec, rule 5: a label is 1 to 63 characters of `[a-z0-9-]` and neither
starts nor ends with a hyphen. -/
def SpecLabel (l : List Char) : Prop :=
  1 ≤ l.length ∧ l.length ≤ 63 ∧ (∀ c ∈ l, clsLabel c = true) ∧
    l.head? ≠ some '-' ∧ l.getLast? ≠ some '-'

/-- Spec, rule 5: the final label is at least two letters `[a-z]`. -/
def SpecFinalLabel (t : List Char) : Prop :=
  2 ≤ t.length ∧ ∀ c ∈ t, clsLower c = true

/-- Spec, rules 4 and 5: a port is 1 to 5 decimal digits. -/
def SpecPort (p : List Char) : Prop :=
  1 ≤ p.length ∧ p.length ≤ 5 ∧ ∀ c ∈ p, clsDigit c = true

/-- Spec, rules 4 and 5: the optional trailing `:<port>`. -/
def SpecPortSuffix (w : List Char) : Prop :=
  w = [] ∨ ∃ p, w = ':' :: p ∧ SpecPort p

/-- Spec, rule 5: the DNS-hostname pattern: one or more labels, each followed
by `.`, then the final label, then the optional port. -/
def SpecHostname (s : String) : Prop :=
  ∃ (labels : List (List Char)) (final w : List Char),
    labels ≠ [] ∧ (∀ l ∈ labels, SpecLabel l) ∧ SpecFinalLabel final ∧ SpecPortSuffix w ∧
      s.data = (labels.map (fun l => l ++ ['.'])).flatten ++ final ++ w

/-- Spec, rule 4: `localhost` or `localhost:<1-5 digits>`. -/
def SpecLocalhost (s : String) : Prop :=
  ∃ w : List Char, SpecPortSuffix w ∧ s.data = "localhost".data ++ w

/-- Spec, rule 3: the first character is a lowercase ASCII letter. -/
def SpecFirstLower (s : String) : Prop :=
  ∃ (c : Char) (rest : List Char), s.data = c :: rest ∧ 'a' ≤ c ∧ c ≤ 'z'

/-- Spec, rule 2: the string begins with `http://` or `https://` in any
letter case. -/
def SpecSchemePrefix (s : String) : Prop :=
  (s.data.take 7).map Char.toLower = "http://".data ∨
    (s.data.take 8).map Char.toLower = "https://".data

/-- The characters a valid domain is made of: `[a-z0-9-]`, `.` and `:`. -/
def domainChar (c : Char) : Bool := clsLabel c || c == '.' || c == ':'

/-- The sites of an owner that carry a name, the documents the filter
`{ userId, siteName }` selects. -/
def sitesNamed (sites : List Site) (userId siteName : String) : List Site :=
  sites.filter (fun s => s.userId == userId && s.siteName == siteName)

/-- The unique index on `(userId, siteName)` holds in a collection. -/
def UniqueNames (sites : List Site) : Prop :=
  sites.Pairwise (fun a b => ¬ (a.userId = b.userId ∧ a.siteName = b.siteName))

/-- The names of a collection are stored trimmed, as the schema's `trim`
setter leaves them. -/
def NamesTrimmed (sites : List Site) : Prop :=
  ∀ s ∈ sites, jsTrim s.siteName = s.siteName

/-- Value of a field of a success body, `none` for an error response or an
absent field. -/
def Response.field (r : Response) (k : String) : Option Json :=
  match r with
  | .ok fields => Claims.get fields k
  | .error _ _ => none

/-! ## Sample values -/

/-- A call environment: ASCII-only case conversion, a fixed UUID and instant,
an identity provider that answers. -/
def sampleEnv : Env :=
  { lowerNonAscii := fun s => s
    randomUUID := "3f2b8c1e-0000-4000-8000-000000000001"
    now := "2024-05-01T10:00:00.000Z"
    getUserFails := false
    setClaimsFails := false }

/-- A site of the identity `u1`, as createSite stores it. -/
def sampleSite (siteName domain apiKey : String) : Site :=
  { userId := "u1", siteName := siteName, domains := [{ value := domain, locked := false }],
    siteType := "vitrine", apiKey := apiKey, createdAt := "2024-04-01T08:00:00.000Z",
    updatedAt := "2024-04-01T08:00:00.000Z" }

/-- The user document of `u1` with the defaults of the schema. -/
def sampleUser : User :=
  { uid := "u1", pl := "free", maxSites := 2, emailNotificationsEnabled := false,
    pushToken := none, createdAt := "2024-04-01T08:00:00.000Z",
    updatedAt := "2024-04-01T08:00:00.000Z" }

/-- A store in which `u1` owns the site `Shop`. -/
def worldOneSite : World :=
  { users := [sampleUser], sites := [sampleSite "Shop" "shop.example.com" "k1"], claims := [] }

/-- A store in which `u1` owns two sites, its quota. -/
def worldTwoSites : World :=
  { users := [sampleUser]
    sites := [sampleSite "Shop" "shop.example.com" "k1", sampleSite "Blog" "blog.example.com" "k2"]
    claims := [] }

/-- A store in which a site of `u2` holds the locked domain `taken.com`. -/
def worldLocked : World :=
  { users := [sampleUser]
    sites := [{ userId := "u2", siteName := "Other",
                domains := [{ value := "taken.com", locked := true }], siteType := "landing",
                apiKey := "k9", createdAt := "2024-03-01T08:00:00.000Z",
                updatedAt := "2024-03-01T08:00:00.000Z" }]
    claims := [] }

/-- An empty store and an identity provider without claims. -/
def emptyWorld : World := { users := [], sites := [], claims := [] }

/-! ## The other handlers of siteRoutes.js -/

/-- JavaScript truthiness of a JSON value. -/
def Json.truthy : Json → Bool
  | .null => false
  | .bool b => b
  | .num n => n != 0
  | .str s => s != ""
  | .arr _ => true
  | .obj _ => true

/-- Truthiness of a property that may be undefined. -/
def jsTruthy (v : Option Json) : Bool :=
  match v with
  | some j => j.truthy
  | none => false

/-- What the handlers below take from outside in addition to `Env`: the
`message` of an exception thrown by a collaborator or by the runtime, and
whether the push service and the deletion of the identity fail. -/
structure Faults where
  /-- Property `error.message` of the exception thrown. -/
  errorMessage : String
  /-- Call `adminMessaging.unsubscribeFromTopic` throws. -/
  unsubscribeFails : Bool
  /-- Call `adminAuth.deleteUser` throws. -/
  deleteUserFails : Bool

/-- The claims `router.post('/user')` writes when the claims have no plan:
`{ ...claims, pl, st: 'active', maxSites, emailNotificationsEnabled }`. -/
def initClaims (claims : Claims) (userDoc : User) : Claims :=
  (((claims.set "pl" (.str userDoc.pl)).set "st" (.str "active")).set "maxSites"
    (.num userDoc.maxSites)).set "emailNotificationsEnabled"
    (.bool userDoc.emailNotificationsEnabled)

/-- Handler `router.post('/user')`, the operation initUserProfile, for the
verified identity `uid`: the state after the call and the response.  An
exception of the identity provider is answered SERVER_ERROR. -/
def initUserProfile (env : Env) (faults : Faults) (w : World) (uid : String) :
    World × Response :=
  let userDoc := resolveUser env w uid
  let w := ensureUser env w uid
  if env.getUserFails then (w, errorJson "SERVER_ERROR" faults.errorMessage)
  else
    let claims := customClaims w uid
    if !jsTruthy (claims.get "pl") then
      let newClaims := initClaims claims userDoc
      if env.setClaimsFails then (w, errorJson "SERVER_ERROR" faults.errorMessage)
      else (setCustomUserClaims w uid newClaims, .ok [("token", .str "reload")])
    else (w, .ok [("token", .str "reload")])

/-- The body of a request to `router.post('/email')`; `enabled` is `none` when
the field is absent or the body is not JSON. -/
structure EmailBody where
  enabled : Option Json

/-- Constant `emailPrefix`. -/
def emailPrefix : String := "info.Notifications email "

/-- Method `String.prototype.startsWith`. -/
def jsStartsWith (s p : String) : Bool := p.data.isPrefixOf s.data

/-- The filter `m => typeof m === 'string' && !m.startsWith(emailPrefix)`. -/
def keepMsg (m : Json) : Bool :=
  match m with
  | .str s => !jsStartsWith s emailPrefix
  | _ => false

/-- The message `emailMsg` of the handler, with `timestamp` the result of
`new Date().toISOString()`. -/
def emailMsg (enabled : Bool) (timestamp : String) : String :=
  let statusText := if enabled then "activées" else "désactivées"
  emailPrefix ++ statusText ++ " le " ++ timestamp

/-- The array `msgs` the email handler writes. -/
def emailMsgs (claims : Claims) (enabled : Bool) (timestamp : String) : List Json :=
  (claimMsgs claims).filter keepMsg ++ [Json.str (emailMsg enabled timestamp)]

/-- The claims `router.post('/email')` writes:
`{ ...claims, emailNotificationsEnabled, msg: emailMsg, msgs }`. -/
def emailClaims (claims : Claims) (userDoc : User) (enabled : Bool) (timestamp : String) :
    Claims :=
  ((claims.set "emailNotificationsEnabled" (.bool userDoc.emailNotificationsEnabled)).set
    "msg" (.str (emailMsg enabled timestamp))).set "msgs"
    (.arr (emailMsgs claims enabled timestamp))

/-- Query `User.findOneAndUpdate({ uid }, update, { new: true })`: the first
document of the identity is updated; the collection after the call and the
updated document, `none` when there is no such document. -/
def findOneAndUpdate (users : List User) (uid : String) (update : User → User) :
    List User × Option User :=
  match users with
  | [] => ([], none)
  | u :: rest =>
    if u.uid == uid then (update u :: rest, some (update u))
    else ((u :: (findOneAndUpdate rest uid update).1), (findOneAndUpdate rest uid update).2)

/-- The inner `try` block of the email handler; an exception of the identity
provider is caught and leaves the claims as they were. -/
def syncEmail (env : Env) (w : World) (uid : String) (userDoc : User) (enabled : Bool) :
    World :=
  if env.getUserFails then w
  else
    let claims := customClaims w uid
    let newClaims := emailClaims claims userDoc enabled env.now
    if env.setClaimsFails then w
    else setCustomUserClaims w uid newClaims

/-- Handler `router.post('/email')`, the operation setEmailNotifications, for
the verified identity `uid`. -/
def setEmailNotifications (env : Env) (w : World) (uid : String) (body : EmailBody) :
    World × Response :=
  let enabled := jsTruthy body.enabled
  let updated := findOneAndUpdate w.users uid
    (fun u => { u with emailNotificationsEnabled := enabled, updatedAt := env.now })
  match updated.2 with
  | none => (w, errorJson "SERVER_ERROR" "Profil utilisateur introuvable")
  | some userDoc =>
    let w := { w with users := updated.1 }
    let w := syncEmail env w uid userDoc enabled
    (w, .ok [("success", .bool true),
      ("emailNotificationsEnabled", .bool userDoc.emailNotificationsEnabled),
      ("token", .str "reload")])

/-- What a call of `router.post('/deleteUser')` leaves: the state, the
response, and the pair `(pushToken, topic)` the push service unsubscribed,
`none` when the user has no push token or the call failed. -/
structure DeleteOutcome where
  world : World
  response : Response
  unsubscribed : Option (String × String)

/-- Handler `router.post('/deleteUser')`, the operation deleteAccount, for the
verified identity `uid`.  A failure of the unsubscribe call is caught and
logged; the sites of the identity and its user document are deleted; then the
identity is deleted at the provider, with its claims, and an exception of that
call is answered SERVER_ERROR. -/
def deleteAccount (faults : Faults) (w : World) (uid : String) : DeleteOutcome :=
  let userDoc := findUser w.users uid
  let pushToken := userDoc.bind (fun u => u.pushToken)
  let unsubscribed :=
    match pushToken with
    | some t =>
      if t != "" then (if faults.unsubscribeFails then none else some (t, "user_" ++ uid))
      else none
    | none => none
  let w := { w with sites := w.sites.filter (fun s => !(s.userId == uid)) }
  let w := { w with users := w.users.eraseP (fun u => u.uid == uid) }
  if faults.deleteUserFails then
    { world := w, response := errorJson "SERVER_ERROR" faults.errorMessage,
      unsubscribed := unsubscribed }
  else
    { world := { w with claims := w.claims.filter (fun e => !(e.1 == uid)) },
      response := .ok [("success", .bool true)], unsubscribed := unsubscribed }

/-! ## createSite on a body whose `domains` is any JSON value -/

/-- The body of a createSite request as `c.req.json()` gives it, its `domains`
being any JSON value, `none` when the field is absent.  A `CreateSiteBody` is
such a body whose `domains` is absent or an array of strings. -/
structure RawCreateSiteBody where
  siteName : Option String
  domains : Option Json
  siteType : Option String

/-- The strings of an array whose elements are all strings; `none` when an
element is not a string. -/
def jsonStrings : List Json → Option (List String)
  | [] => some []
  | .str s :: rest => (jsonStrings rest).map (fun l => s :: l)
  | _ :: _ => none

/-- Expression `domains.map(domain => ({ value: domain.trim().toLowerCase(),
locked: false }))` on any JSON value: the whole array is mapped before the
loop over the domains starts, and the result is `none` when the expression
throws a `TypeError`, `domains` not being an array (no method `map`) or one
of its elements not being a string (no method `trim`). -/
def formatRawDomains (env : Env) (domains : Json) : Option (List Domain) :=
  match domains with
  | .arr items => (jsonStrings items).map (formatDomains env)
  | _ => none

/-- Handler `router.post('/createSite')` on a body whose `domains` is any JSON
value: as `createSite`, but the test of the fields is JavaScript truthiness
of `domains`, and a `TypeError` of `domains.map` is caught by the `catch`
block and answered SERVER_ERROR with the message of the error. -/
def createSiteRaw (env : Env) (faults : Faults) (w : World) (userId : String)
    (body : RawCreateSiteBody) : World × Response :=
  let userDoc := resolveUser env w userId
  let w := ensureUser env w userId
  if !truthy body.siteName || !jsTruthy body.domains || !truthy body.siteType then
    (w, errorJson "MISSING_FIELDS" "")
  else
    let siteName := body.siteName.getD ""
    let siteType := body.siteType.getD ""
    if jsLength siteName > 15 then (w, errorJson "SITE_NAME_TOO_LONG" "")
    else if !siteTypes.contains siteType then (w, errorJson "INVALID_SITE_TYPE" "")
    else
      let currentSiteCount := countSites w.sites userId
      if (currentSiteCount : Int) ≥ userDoc.maxSites then
        (w, errorJson "SITE_QUOTA_EXCEEDED" "")
      else
        match body.domains.bind (formatRawDomains env) with
        | none => (w, errorJson "SERVER_ERROR" faults.errorMessage)
        | some formattedDomains =>
          match checkDomains w.sites formattedDomains with
          | some response => (w, response)
          | none => saveAndRespond env w userId userDoc siteName formattedDomains siteType

/-- The environment of a call in which the identity provider answers, all else
being equal. -/
def answering (env : Env) : Env :=
  { env with getUserFails := false, setClaimsFails := false }

/-- The `TypeError` of `domain.trim()` on a number. -/
def typeErrorFaults : Faults :=
  { errorMessage := "domain.trim is not a function", unsubscribeFails := false,
    deleteUserFails := false }

/-! ## Notions of the specification for the claims history -/

/-- Spec: the last `k` elements of a list, in their original order. -/
def lastN {α : Type} (k : Nat) (l : List α) : List α := l.drop (l.length - k)

/-- Spec: an entry of the email category, a string that starts with the
prefix `info.Notifications email `. -/
def isEmailEntry (m : Json) : Bool :=
  match m with
  | .str s => jsStartsWith s "info.Notifications email "
  | _ => false

/-- Spec: a string entry that is not of the email category. -/
def isOtherStringEntry (m : Json) : Bool :=
  match m with
  | .str s => !jsStartsWith s "info.Notifications email "
  | _ => false

/-- The unique index on `uid` holds in the User collection for an identity. -/
def UniqueUid (users : List User) (uid : String) : Prop :=
  (users.filter (fun u => u.uid == uid)).length ≤ 1

/-- Twenty messages of created sites, a full history. -/
def twentyMsgs : List Json :=
  List.replicate 20 (Json.str "success.Site \"Shop\" créé le 2024-04-01T08:00:00.000Z")

/-- A store in which `u1` has a user document and a full message history in
its claims, next to a field `theme` of another subsystem. -/
def worldFullHistory : World :=
  { users := [{ uid := "u1", pl := "free", maxSites := 2, emailNotificationsEnabled := false,
                pushToken := some "fcm-token-1", createdAt := "2024-04-01T08:00:00.000Z",
                updatedAt := "2024-04-01T08:00:00.000Z" }]
    sites := [{ userId := "u1", siteName := "Shop",
                domains := [{ value := "shop.example.com", locked := false }],
                siteType := "vitrine", apiKey := "k1", createdAt := "2024-04-01T08:00:00.000Z",
                updatedAt := "2024-04-01T08:00:00.000Z" }]
    claims := [("u1", [("pl", .str "free"), ("theme", .str "dark"), ("msgs", .arr twentyMsgs)])] }

/-- A store in which the claims of `u1` hold a quota and a status but no plan. -/
def worldNoPlan : World :=
  { users := [{ uid := "u1", pl := "free", maxSites := 2, emailNotificationsEnabled := false,
                pushToken := none, createdAt := "2024-04-01T08:00:00.000Z",
                updatedAt := "2024-04-01T08:00:00.000Z" }]
    sites := []
    claims := [("u1", [("maxSites", .num 5), ("st", .str "suspended")])] }

/-- No collaborator fails. -/
def noFaults : Faults :=
  { errorMessage := "", unsubscribeFails := false, deleteUserFails := false }

/-- The deletion of the identity fails at the provider. -/
def deleteFails : Faults :=
  { errorMessage := "auth/internal-error", unsubscribeFails := true, deleteUserFails := true }

/-- A call environment in which the identity provider does not answer. -/
def failingEnv : Env :=
  { lowerNonAscii := fun s => s
    randomUUID := "3f2b8c1e-0000-4000-8000-000000000002"
    now := "2024-05-02T10:00:00.000Z"
    getUserFails := true
    setClaimsFails := true }

/-! ## Lemmas on the regular-expression matcher -/

theorem mem_splits {α : Type} (s u v : List α) : (u, v) ∈ splits s ↔ u ++ v = s := by
  induction s generalizing u v with
  | nil => simp [splits]
  | cons a l ih =>
    simp only [splits, List.mem_cons, List.mem_map, Prod.mk.injEq, Prod.exists]
    constructor
    · rintro (⟨rfl, rfl⟩ | ⟨u1, v1, hm, rfl, rfl⟩)
      · rfl
      · simp [(ih u1 v1).1 hm]
    · intro h
      cases u with
      | nil => left; exact ⟨rfl, by simpa using h⟩
      | cons b u1 =>
        right
        simp only [List.cons_append, List.cons.injEq] at h
        exact ⟨u1, v, (ih u1 v).2 h.2, by rw [h.1], rfl⟩

theorem any_splits {α : Type} (s : List α) (f : List α × List α → Bool) :
    (splits s).any f = true ↔ ∃ u v, u ++ v = s ∧ f (u, v) = true := by
  simp only [List.any_eq_true, Prod.exists, mem_splits]

theorem repTest_iff (t : List Char → Bool) (lo hi : Nat) (s : List Char) :
    repTest t lo hi s = true ↔
      ∃ parts : List (List Char), parts.flatten = s ∧ lo ≤ parts.length ∧
        parts.length ≤ hi ∧ ∀ p ∈ parts, t p = true := by
  induction hi generalizing lo s with
  | zero =>
    simp only [repTest, Bool.and_eq_true, beq_iff_eq, List.isEmpty_iff]
    constructor
    · rintro ⟨rfl, rfl⟩
      exact ⟨[], by simp⟩
    · rintro ⟨parts, hj, hlo, hhi, -⟩
      have : parts = [] := List.length_eq_zero.1 (Nat.le_zero.1 hhi)
      subst this
      simp at hj hlo
      exact ⟨hlo, hj⟩
  | succ hi ih =>
    simp only [repTest, Bool.or_eq_true, Bool.and_eq_true, beq_iff_eq, List.isEmpty_iff,
      any_splits, ih]
    constructor
    · rintro (⟨rfl, rfl⟩ | ⟨u, v, rfl, hu, parts, rfl, hlo, hhi, hall⟩)
      · exact ⟨[], by simp⟩
      · refine ⟨u :: parts, by simp, by simp; omega, by simp; omega, ?_⟩
        intro p hp
        rcases List.mem_cons.1 hp with rfl | hp
        · exact hu
        · exact hall p hp
    · rintro ⟨parts, rfl, hlo, hhi, hall⟩
      cases parts with
      | nil => left; simp at hlo; simp [hlo]
      | cons u ps =>
        right
        refine ⟨u, ps.flatten, by simp, hall u (by simp), ps, rfl, ?_, ?_, ?_⟩
        · simp at hlo; omega
        · simp at hhi; omega
        · intro p hp; exact hall p (by simp [hp])

theorem cls_test_iff (p : Char → Bool) (s : List Char) :
    (Re.cls p).test s = true ↔ ∃ x, s = [x] ∧ p x = true := by
  cases s with
  | nil => simp [Re.test]
  | cons a l =>
    cases l with
    | nil => simp [Re.test]
    | cons b l => simp [Re.test]

theorem chr_test_iff (c : Char) (s : List Char) : (Re.chr c).test s = true ↔ s = [c] := by
  simp [Re.test]

theorem seq_test_iff (a b : Re) (s : List Char) :
    (Re.seq a b).test s = true ↔ ∃ u v, u ++ v = s ∧ a.test u = true ∧ b.test v = true := by
  simp only [Re.test, any_splits, Bool.and_eq_true]

theorem opt_test_iff (a : Re) (s : List Char) :
    (Re.opt a).test s = true ↔ a.test s = true ∨ s = [] := by
  simp [Re.test]

theorem rep_cls_iff (p : Char → Bool) (lo hi : Nat) (s : List Char) :
    repTest (fun u => (Re.cls p).test u) lo hi s = true ↔
      lo ≤ s.length ∧ s.length ≤ hi ∧ ∀ c ∈ s, p c = true := by
  induction hi generalizing lo s with
  | zero =>
    simp only [repTest, Bool.and_eq_true, beq_iff_eq, List.isEmpty_iff]
    constructor
    · rintro ⟨rfl, rfl⟩; simp
    · rintro ⟨h1, h2, -⟩
      have : s = [] := List.length_eq_zero.1 (Nat.le_zero.1 h2)
      subst this
      simp at h1
      exact ⟨h1, rfl⟩
  | succ hi ih =>
    simp only [repTest, Bool.or_eq_true, Bool.and_eq_true, beq_iff_eq, List.isEmpty_iff,
      any_splits, ih, cls_test_iff]
    constructor
    · rintro (⟨rfl, rfl⟩ | ⟨u, v, rfl, ⟨x, rfl, hx⟩, h1, h2, h3⟩)
      · simp
      · refine ⟨by simp; omega, by simp; omega, ?_⟩
        intro c hc
        simp at hc
        rcases hc with rfl | hc
        · exact hx
        · exact h3 c hc
    · rintro ⟨h1, h2, h3⟩
      cases s with
      | nil => left; simp at h1; simp [h1]
      | cons x v =>
        right
        refine ⟨[x], v, rfl, ⟨x, rfl, h3 x (by simp)⟩, ?_, ?_, ?_⟩
        · simp at h1; omega
        · simp at h2; omega
        · intro c hc; exact h3 c (by simp [hc])

theorem rep_test_iff (a : Re) (lo : Nat) (hi : Option Nat) (s : List Char) :
    (Re.rep a lo hi).test s = true ↔
      ∃ parts : List (List Char), parts.flatten = s ∧ lo ≤ parts.length ∧
        parts.length ≤ hi.getD (max lo s.length) ∧ ∀ p ∈ parts, a.test p = true := by
  simp only [Re.test]
  exact repTest_iff _ lo _ s

theorem rep_cls_test_iff (p : Char → Bool) (lo : Nat) (hi : Option Nat) (s : List Char) :
    (Re.rep (Re.cls p) lo hi).test s = true ↔
      lo ≤ s.length ∧ s.length ≤ hi.getD (max lo s.length) ∧ ∀ c ∈ s, p c = true := by
  simp only [Re.test]
  exact rep_cls_iff p lo _ s

theorem lits_test_iff (cs : List Char) (s : List Char) :
    (Re.cat (cs.map Re.chr)).test s = true ↔ s = cs := by
  induction cs generalizing s with
  | nil => simp [Re.cat, Re.test, repTest]
  | cons c cs ih =>
    cases cs with
    | nil => simp [Re.cat, Re.test]
    | cons d cs =>
      simp only [List.map_cons, Re.cat, seq_test_iff, chr_test_iff]
      simp only [List.map_cons] at ih
      constructor
      · rintro ⟨u, v, rfl, rfl, hv⟩
        rw [(ih v).1 hv]; rfl
      · rintro rfl
        exact ⟨[c], d :: cs, rfl, rfl, (ih _).2 rfl⟩

theorem clsAlnum_iff (c : Char) : clsAlnum c = true ↔ clsLabel c = true ∧ c ≠ '-' := by
  constructor
  · intro h
    refine ⟨by simp [clsLabel]; left; simpa [clsAlnum] using h, ?_⟩
    rintro rfl
    revert h; decide
  · rintro ⟨h, hne⟩
    simp only [clsLabel, Bool.or_eq_true, beq_iff_eq] at h
    rcases h with h | h
    · simpa [clsAlnum] using h
    · exact absurd h hne

theorem reLabel_test_iff (l : List Char) : reLabel.test l = true ↔ SpecLabel l := by
  simp only [reLabel, seq_test_iff, opt_test_iff, cls_test_iff, rep_cls_test_iff, SpecLabel]
  constructor
  · rintro ⟨u, v, rfl, ⟨x, rfl, hx⟩, hv⟩
    have hx2 := (clsAlnum_iff x).1 hx
    rcases hv with ⟨m, e, rfl, ⟨-, hm, hall⟩, y, rfl, hy⟩ | rfl
    · have hy2 := (clsAlnum_iff y).1 hy
      simp only [Option.getD_some] at hm
      refine ⟨by simp, by simp; omega, ?_, by simpa using hx2.2, ?_⟩
      · intro c hc
        simp only [List.singleton_append, List.mem_cons, List.mem_append, List.mem_singleton,
          List.not_mem_nil, or_false] at hc
        rcases hc with rfl | hc | rfl
        · exact hx2.1
        · exact hall c hc
        · exact hy2.1
      · rw [← List.append_assoc, List.getLast?_append]
        simpa using hy2.2
    · refine ⟨by simp, by simp, ?_, by simpa using hx2.2, by simpa using hx2.2⟩
      intro c hc
      simp at hc
      subst hc
      exact hx2.1
  · rintro ⟨h1, h2, h3, h4, h5⟩
    cases l with
    | nil => simp at h1
    | cons x v =>
      have hx : clsAlnum x = true :=
        (clsAlnum_iff x).2 ⟨h3 x (by simp), by simpa using h4⟩
      refine ⟨[x], v, rfl, ⟨x, rfl, hx⟩, ?_⟩
      rcases List.eq_nil_or_concat v with rfl | ⟨m, y, hv⟩
      · right; rfl
      · left
        rw [List.concat_eq_append] at hv
        subst hv
        have hy : clsAlnum y = true := by
          refine (clsAlnum_iff y).2 ⟨h3 y (by simp), ?_⟩
          rw [← List.cons_append, List.getLast?_append] at h5
          simpa using h5
        refine ⟨m, [y], rfl, ⟨Nat.zero_le _, ?_, ?_⟩, y, rfl, hy⟩
        · simp only [Option.getD_some]
          simp at h2; omega
        · intro c hc; exact h3 c (by simp [hc])

theorem rePort_test_iff (w : List Char) : rePort.test w = true ↔ SpecPortSuffix w := by
  simp only [rePort, opt_test_iff, seq_test_iff, chr_test_iff, rep_cls_test_iff,
    Option.getD_some, SpecPortSuffix, SpecPort]
  constructor
  · rintro (⟨u, v, rfl, rfl, h⟩ | rfl)
    · right; exact ⟨v, rfl, h⟩
    · left; rfl
  · rintro (rfl | ⟨p, rfl, h⟩)
    · right; rfl
    · left; exact ⟨[':'], p, rfl, rfl, h⟩

theorem reLocalhost_test_iff (s : String) :
    testAnchored reLocalhost s = true ↔ SpecLocalhost s := by
  simp only [testAnchored, reLocalhost, Re.lits, seq_test_iff, lits_test_iff, rePort_test_iff,
    SpecLocalhost]
  constructor
  · rintro ⟨u, v, h, rfl, hv⟩
    exact ⟨v, hv, h.symm⟩
  · rintro ⟨w, hw, h⟩
    exact ⟨_, w, h.symm, rfl, hw⟩

theorem length_le_flatten (parts : List (List Char)) (h : ∀ p ∈ parts, 1 ≤ p.length) :
    parts.length ≤ parts.flatten.length := by
  induction parts with
  | nil => simp
  | cons p ps ih =>
    have h1 := h p (by simp)
    have h2 := ih (fun q hq => h q (by simp [hq]))
    simp only [List.length_cons, List.flatten_cons, List.length_append]
    omega

theorem labels_of_parts (parts : List (List Char))
    (h : ∀ p ∈ parts, ∃ l, l ++ ['.'] = p ∧ SpecLabel l) :
    ∃ labels : List (List Char),
      parts = labels.map (fun l => l ++ ['.']) ∧ ∀ l ∈ labels, SpecLabel l := by
  induction parts with
  | nil => exact ⟨[], rfl, by simp⟩
  | cons p ps ih =>
    obtain ⟨l, rfl, hl⟩ := h p (by simp)
    obtain ⟨ls, rfl, hls⟩ := ih (fun q hq => h q (by simp [hq]))
    refine ⟨l :: ls, rfl, ?_⟩
    intro x hx
    rcases List.mem_cons.1 hx with rfl | hx
    · exact hl
    · exact hls x hx

theorem domainRe_test_iff (s : String) :
    testAnchored domainRe s = true ↔ SpecHostname s := by
  simp only [testAnchored, domainRe, seq_test_iff, rePort_test_iff, rep_cls_test_iff,
    SpecHostname, SpecFinalLabel]
  simp only [rep_test_iff, seq_test_iff, chr_test_iff, Option.getD_none]
  constructor
  · rintro ⟨u, v, hs, ⟨parts, rfl, hlo, -, hall⟩, t, w, rfl, ⟨ht, -, htl⟩, hw⟩
    have hall2 : ∀ p ∈ parts, ∃ l, l ++ ['.'] = p ∧ SpecLabel l := by
      intro p hp
      obtain ⟨a, b, hab, ha, hb⟩ := hall p hp
      exact ⟨a, by rw [← hab, hb], (reLabel_test_iff a).1 ha⟩
    obtain ⟨labels, rfl, hlabels⟩ := labels_of_parts parts hall2
    refine ⟨labels, t, w, ?_, hlabels, ⟨ht, htl⟩, hw, ?_⟩
    · rintro rfl
      simp at hlo
    · rw [← hs, List.append_assoc]
  · rintro ⟨labels, t, w, hne, hlabels, ⟨ht, htl⟩, hw, hs⟩
    refine ⟨(labels.map (fun l => l ++ ['.'])).flatten, t ++ w, by rw [hs, List.append_assoc],
      ⟨labels.map (fun l => l ++ ['.']), rfl, ?_, ?_, ?_⟩, t, w, rfl, ⟨ht, ?_, htl⟩, hw⟩
    · cases labels with
      | nil => exact absurd rfl hne
      | cons a l => simp
    · refine le_trans (length_le_flatten _ ?_) (le_max_right _ _)
      intro p hp
      obtain ⟨l, -, rfl⟩ := List.mem_map.1 hp
      simp
    · intro p hp
      obtain ⟨l, hl, rfl⟩ := List.mem_map.1 hp
      exact ⟨l, ['.'], rfl, (reLabel_test_iff l).2 (hlabels l hl), rfl⟩
    · exact le_max_right _ _

theorem chrI_test_iff (c : Char) (s : List Char) :
    (Re.chrI c).test s = true ↔ ∃ x, s = [x] ∧ x.toUpper = c.toUpper := by
  cases s with
  | nil => simp [Re.test]
  | cons a l =>
    cases l with
    | nil => simp [Re.test]
    | cons b l => simp [Re.test]

theorem toLower_slash (c : Char) (h : c.toLower = '/') : c = '/' := by
  unfold Char.toLower at h
  simp only at h
  split at h
  · rename_i hr
    generalize c.toNat = n at hr h
    obtain ⟨h1, h2⟩ := hr
    exfalso
    interval_cases n <;> revert h <;> decide
  · exact h

theorem toUpper_slash (c : Char) (h : c.toUpper = '/') : c = '/' := by
  unfold Char.toUpper at h
  simp only at h
  split at h
  · rename_i hr
    generalize c.toNat = n at hr h
    obtain ⟨h1, h2⟩ := hr
    exfalso
    interval_cases n <;> revert h <;> decide
  · exact h

theorem reScheme_slash (p : List Char) (h : reScheme.test p = true) : '/' ∈ p := by
  have e : reScheme = .seq (Re.litsI "http") (.seq (.opt (.chrI 's'))
      (.seq (.chrI ':') (.seq (.chrI '/') (.chrI '/')))) := rfl
  rw [e] at h
  simp only [seq_test_iff, chrI_test_iff] at h
  obtain ⟨u1, v1, rfl, -, u2, v2, rfl, -, u3, v3, rfl, -, u4, v4, rfl, -, x, rfl, hx⟩ := h
  have hx2 : x = '/' := toUpper_slash x hx
  simp [hx2]

theorem testSearch_slash_iff (s : String) : testSearch reSlash s = true ↔ '/' ∈ s.data := by
  simp only [testSearch, reSlash, any_splits, chr_test_iff]
  constructor
  · rintro ⟨u, v, h, a, b, rfl, rfl⟩
    rw [← h]; simp
  · intro h
    obtain ⟨u, t, h⟩ := List.append_of_mem h
    exact ⟨u, '/' :: t, h.symm, ['/'], t, rfl, rfl⟩

theorem testPrefix_scheme_slash (s : String) (h : testPrefix reScheme s = true) :
    '/' ∈ s.data := by
  simp only [testPrefix, any_splits] at h
  obtain ⟨u, v, h, hu⟩ := h
  rw [← h]
  exact List.mem_append_left _ (reScheme_slash u hu)

theorem specScheme_slash (s : String) (h : SpecSchemePrefix s) : '/' ∈ s.data := by
  have key : ∀ (n : Nat) (t : List Char), '/' ∈ t →
      (s.data.take n).map Char.toLower = t → '/' ∈ s.data := by
    intro n t ht e
    rw [← e] at ht
    obtain ⟨x, hx, hx2⟩ := List.mem_map.1 ht
    rw [toLower_slash x hx2] at hx
    exact List.mem_of_mem_take hx
  rcases h with h | h
  · exact key 7 _ (by decide) h
  · exact key 8 _ (by decide) h

theorem testPrefix_firstLower_iff (s : String) :
    testPrefix reFirstLower s = true ↔ SpecFirstLower s := by
  simp only [testPrefix, reFirstLower, any_splits, cls_test_iff, SpecFirstLower, clsLower,
    decide_eq_true_eq]
  constructor
  · rintro ⟨u, v, h, x, rfl, hx⟩
    exact ⟨x, v, h.symm, hx⟩
  · rintro ⟨c, rest, h, hc⟩
    exact ⟨[c], rest, h.symm, c, rfl, hc⟩

theorem isValidDomain_iff (s : String) :
    isValidDomain s = true ↔
      s ≠ "" ∧ testPrefix reScheme s = false ∧ testSearch reSlash s = false ∧
        testPrefix reFirstLower s = true ∧
          (testAnchored reLocalhost s = true ∨ testAnchored domainRe s = true) := by
  unfold isValidDomain
  by_cases h1 : s = ""
  · simp [h1]
  · cases h2 : testPrefix reScheme s <;> cases h3 : testSearch reSlash s <;>
      cases h4 : testPrefix reFirstLower s <;> cases h5 : testAnchored reLocalhost s <;>
      simp [h1]

theorem specPortSuffix_chars (w : List Char) (h : SpecPortSuffix w) :
    ∀ c ∈ w, domainChar c = true := by
  intro c hc
  rcases h with rfl | ⟨p, rfl, -, -, hp⟩
  · simp at hc
  · rcases List.mem_cons.1 hc with rfl | hc
    · decide
    · have := hp c hc
      simp [domainChar, clsLabel, this]

theorem specHostname_chars (s : String) (h : SpecHostname s) :
    ∀ c ∈ s.data, domainChar c = true := by
  obtain ⟨labels, final, w, -, hl, ⟨-, hf⟩, hw, hs⟩ := h
  intro c hc
  rw [hs] at hc
  simp only [List.mem_append, List.mem_flatten, List.mem_map] at hc
  rcases hc with (⟨p, ⟨l, hlm, rfl⟩, hcp⟩ | hc) | hc
  · rcases List.mem_append.1 hcp with hcl | hcd
    · have := (hl l hlm).2.2.1 c hcl
      simp [domainChar, this]
    · simp at hcd
      subst hcd
      decide
  · have := hf c hc
    simp [domainChar, clsLabel, this]
  · exact specPortSuffix_chars w hw c hc

theorem specLocalhost_chars (s : String) (h : SpecLocalhost s) :
    ∀ c ∈ s.data, domainChar c = true := by
  obtain ⟨w, hw, hs⟩ := h
  intro c hc
  rw [hs] at hc
  rcases List.mem_append.1 hc with hc | hc
  · have hall : ∀ x ∈ "localhost".data, domainChar x = true := by decide
    exact hall c hc
  · exact specPortSuffix_chars w hw c hc

theorem isValidDomain_spec (s : String) (h : isValidDomain s = true) :
    s ≠ "" ∧ SpecFirstLower s ∧ (SpecLocalhost s ∨ SpecHostname s) := by
  obtain ⟨h1, -, -, h4, h5⟩ := (isValidDomain_iff s).1 h
  refine ⟨h1, (testPrefix_firstLower_iff s).1 h4, ?_⟩
  rcases h5 with h5 | h5
  · exact Or.inl ((reLocalhost_test_iff s).1 h5)
  · exact Or.inr ((domainRe_test_iff s).1 h5)

theorem isValidDomain_chars (s : String) (h : isValidDomain s = true) :
    ∀ c ∈ s.data, domainChar c = true := by
  rcases (isValidDomain_spec s h).2.2 with h | h
  · exact specLocalhost_chars s h
  · exact specHostname_chars s h

theorem isValidDomain_of_spec (s : String) (hf : SpecFirstLower s)
    (h : SpecLocalhost s ∨ SpecHostname s) : isValidDomain s = true := by
  have hchars : ∀ c ∈ s.data, domainChar c = true := by
    rcases h with h | h
    · exact specLocalhost_chars s h
    · exact specHostname_chars s h
  have hslash : '/' ∉ s.data := by
    intro hc
    have := hchars _ hc
    revert this; decide
  refine (isValidDomain_iff s).2 ⟨?_, ?_, ?_, (testPrefix_firstLower_iff s).2 hf, ?_⟩
  · rintro rfl
    obtain ⟨c, rest, hc, -⟩ := hf
    simp at hc
  · cases h2 : testPrefix reScheme s
    · rfl
    · exact absurd (testPrefix_scheme_slash s h2) hslash
  · cases h3 : testSearch reSlash s
    · rfl
    · exact absurd ((testSearch_slash_iff s).1 h3) hslash
  · rcases h with h | h
    · exact Or.inl ((reLocalhost_test_iff s).2 h)
    · exact Or.inr ((domainRe_test_iff s).2 h)

/-! ## Claims C4, C5, C6: isValidDomain -/

/-- C4 (counterexample): the string `1a.co` is of the hostname grammar of §4.1
rule 5 (the label `1a`, the final label `co`, no port), and isValidDomain
rejects it, its first character not being a lowercase letter. -/
theorem c4_grammar_string_rejected :
    SpecHostname "1a.co" ∧ isValidDomain "1a.co" = false := by
  refine ⟨⟨[['1', 'a']], ['c', 'o'], [], by simp, ?_, ?_, Or.inl rfl, rfl⟩, by decide⟩
  · intro l hl
    simp only [List.mem_singleton] at hl
    subst hl
    unfold SpecLabel
    decide
  · unfold SpecFinalLabel
    decide

/-- C4 (amended): isValidDomain accepts every string of the hostname grammar of
§4.1 rule 5 whose first character is a lowercase ASCII letter. -/
theorem c4_isValidDomain_accepts_grammar (s : String) (hg : SpecHostname s)
    (hf : SpecFirstLower s) : isValidDomain s = true :=
  isValidDomain_of_spec s hf (Or.inr hg)

/-- C4 (witness): the amended statement at `a.co`. -/
theorem c4_isValidDomain_accepts_grammar_witness :
    SpecHostname "a.co" ∧ SpecFirstLower "a.co" ∧ isValidDomain "a.co" = true := by
  have hg : SpecHostname "a.co" := by
    refine ⟨[['a']], ['c', 'o'], [], by simp, ?_, ?_, Or.inl rfl, rfl⟩
    · intro l hl
      simp only [List.mem_singleton] at hl
      subst hl
      unfold SpecLabel
      decide
    · unfold SpecFinalLabel
      decide
  have hf : SpecFirstLower "a.co" := ⟨'a', ['.', 'c', 'o'], rfl, by decide⟩
  exact ⟨hg, hf, c4_isValidDomain_accepts_grammar "a.co" hg hf⟩

/-- C5: isValidDomain is sound for rules 1 to 5: an accepted string is not
empty, starts with a lowercase ASCII letter, and is `localhost`, or
`localhost:` followed by 1 to 5 digits, or a string of the DNS-hostname
pattern; `EXAMPLE.com` and `a..co` are rejected, `localhost`, `localhost:3000`
and `a.co` are accepted. -/
theorem c5_isValidDomain_sound (s : String) (h : isValidDomain s = true) :
    (s ≠ "" ∧ SpecFirstLower s ∧
      (s = "localhost" ∨
        (∃ p : List Char, SpecPort p ∧ s.data = "localhost:".data ++ p) ∨
        SpecHostname s)) ∧
    isValidDomain "EXAMPLE.com" = false ∧ isValidDomain "a..co" = false ∧
    isValidDomain "localhost" = true ∧ isValidDomain "localhost:3000" = true ∧
    isValidDomain "a.co" = true := by
  refine ⟨?_, by decide, by decide, by decide, by decide, by decide⟩
  obtain ⟨h1, h2, h3⟩ := isValidDomain_spec s h
  refine ⟨h1, h2, ?_⟩
  rcases h3 with ⟨w, hw, hs⟩ | h3
  · rcases hw with rfl | ⟨p, rfl, hp⟩
    · left
      exact String.ext (by simpa using hs)
    · right; left
      exact ⟨p, hp, by rw [hs]; rfl⟩
  · right; right; exact h3

/-- C5 (witness): the soundness statement at `localhost:3000`. -/
theorem c5_isValidDomain_sound_witness :
    ("localhost:3000" ≠ "" ∧ SpecFirstLower "localhost:3000" ∧
      ("localhost:3000" = "localhost" ∨
        (∃ p : List Char, SpecPort p ∧ "localhost:3000".data = "localhost:".data ++ p) ∨
        SpecHostname "localhost:3000")) ∧
    isValidDomain "EXAMPLE.com" = false ∧ isValidDomain "a..co" = false ∧
    isValidDomain "localhost" = true ∧ isValidDomain "localhost:3000" = true ∧
    isValidDomain "a.co" = true :=
  c5_isValidDomain_sound "localhost:3000" (by decide)

/-- C6: isValidDomain rejects every string that contains a `/` or begins with
`http://` or `https://` in any letter case. -/
theorem c6_isValidDomain_rejects_slash_and_scheme (s : String)
    (h : '/' ∈ s.data ∨ SpecSchemePrefix s) : isValidDomain s = false := by
  have hslash : '/' ∈ s.data := by
    rcases h with h | h
    · exact h
    · exact specScheme_slash s h
  cases hv : isValidDomain s
  · rfl
  · have := (isValidDomain_iff s).1 hv
    rw [(testSearch_slash_iff s).2 hslash] at this
    simp at this

/-- C6 (witness): the rejection at `HTTPS://a.co`. -/
theorem c6_isValidDomain_rejects_slash_and_scheme_witness :
    ('/' ∈ "HTTPS://a.co".data ∨ SpecSchemePrefix "HTTPS://a.co") ∧
      isValidDomain "HTTPS://a.co" = false :=
  ⟨Or.inr (Or.inr (by decide)),
    c6_isValidDomain_rejects_slash_and_scheme "HTTPS://a.co" (Or.inr (Or.inr (by decide)))⟩

/-! ## Lemmas on createSite -/

theorem ensureUser_sites (env : Env) (w : World) (userId : String) :
    (ensureUser env w userId).sites = w.sites := by
  unfold ensureUser
  split <;> rfl

theorem ensureUser_claims (env : Env) (w : World) (userId : String) :
    (ensureUser env w userId).claims = w.claims := by
  unfold ensureUser
  split <;> rfl

theorem createSite_missing (env : Env) (w : World) (userId : String) (body : CreateSiteBody)
    (h : truthy body.siteName = false ∨ body.domains = none ∨ truthy body.siteType = false) :
    createSite env w userId body = (ensureUser env w userId, errorJson "MISSING_FIELDS" "") := by
  unfold createSite
  have : (!truthy body.siteName || body.domains.isNone || !truthy body.siteType) = true := by
    rcases h with h | h | h <;> simp [h]
  simp only [this, if_true]

theorem createSite_present (env : Env) (w : World) (userId : String) (body : CreateSiteBody)
    (h1 : truthy body.siteName = true) (h2 : body.domains ≠ none)
    (h3 : truthy body.siteType = true) :
    createSite env w userId body =
      if jsLength (body.siteName.getD "") > 15 then
        (ensureUser env w userId, errorJson "SITE_NAME_TOO_LONG" "")
      else if !siteTypes.contains (body.siteType.getD "") then
        (ensureUser env w userId, errorJson "INVALID_SITE_TYPE" "")
      else if (countSites w.sites userId : Int) ≥ (resolveUser env w userId).maxSites then
        (ensureUser env w userId, errorJson "SITE_QUOTA_EXCEEDED" "")
      else
        match checkDomains w.sites (formatDomains env (body.domains.getD [])) with
        | some response => (ensureUser env w userId, response)
        | none =>
          saveAndRespond env (ensureUser env w userId) userId (resolveUser env w userId)
            (body.siteName.getD "") (formatDomains env (body.domains.getD []))
            (body.siteType.getD "") := by
  unfold createSite
  have : (!truthy body.siteName || body.domains.isNone || !truthy body.siteType) = false := by
    cases hd : body.domains with
    | none => exact absurd hd h2
    | some d => simp [h1, h3]
  simp only [this, ensureUser_sites]
  rfl

theorem truthy_some (v : String) (h : v ≠ "") : truthy (some v) = true := by
  simp [truthy, h]

theorem siteType_ne_empty (siteType : String) (h : siteType ∈ siteTypes) : siteType ≠ "" := by
  rintro rfl
  revert h
  decide

theorem contains_siteTypes (siteType : String) :
    siteTypes.contains siteType = true ↔ siteType ∈ siteTypes := by
  simp

/-! ## Claims C1, C3: quota and order of the checks -/

/-- C1: for every store, owner and request that passes the field, name-length
and site-type checks, if the owner has at least `maxSites` sites then
createSite answers SITE_QUOTA_EXCEEDED and the Site collection is unchanged. -/
theorem c1_createSite_quota (env : Env) (w : World) (userId siteName siteType : String)
    (domains : List String) (hname : siteName ≠ "") (hlen : jsLength siteName ≤ 15)
    (htype : siteType ∈ siteTypes)
    (hquota : (resolveUser env w userId).maxSites ≤ (countSites w.sites userId : Int)) :
    (createSite env w userId ⟨some siteName, some domains, some siteType⟩).2 =
        errorJson "SITE_QUOTA_EXCEEDED" "" ∧
      (createSite env w userId ⟨some siteName, some domains, some siteType⟩).1.sites =
        w.sites := by
  rw [createSite_present env w userId _ (truthy_some _ hname) (by simp)
    (truthy_some _ (siteType_ne_empty _ htype))]
  simp only [Option.getD_some]
  rw [if_neg (by omega), if_neg (by simpa using htype), if_pos hquota]
  exact ⟨rfl, ensureUser_sites env w userId⟩

/-- C1 (witness): `u1` has the default quota of 2 and owns two sites. -/
theorem c1_createSite_quota_witness :
    ("Third" ≠ "" ∧ jsLength "Third" ≤ 15 ∧ "landing" ∈ siteTypes ∧
      (resolveUser sampleEnv worldTwoSites "u1").maxSites ≤
        (countSites worldTwoSites.sites "u1" : Int)) ∧
    (createSite sampleEnv worldTwoSites "u1"
        ⟨some "Third", some ["third.example.com"], some "landing"⟩).2 =
        errorJson "SITE_QUOTA_EXCEEDED" "" ∧
      (createSite sampleEnv worldTwoSites "u1"
        ⟨some "Third", some ["third.example.com"], some "landing"⟩).1.sites =
        worldTwoSites.sites :=
  ⟨⟨by decide, by decide, by decide, by decide⟩,
    c1_createSite_quota sampleEnv worldTwoSites "u1" "Third" "landing" ["third.example.com"]
      (by decide) (by decide) (by decide) (by decide)⟩

theorem code_errorJson (code details : String) :
    (errorJson code details).code = some code := rfl

theorem not_contains_siteTypes (siteType : String) :
    (!siteTypes.contains siteType) = true ↔ siteType ∉ siteTypes := by
  rw [Bool.not_eq_true', ← contains_siteTypes, Bool.not_eq_true]

theorem errorJson_code_ne (w : World) (code details other : String) (hne : code ≠ other) :
    ¬ ((w, errorJson code details).2.code = some other) :=
  fun h => hne (Option.some.inj h)

/-- C3: createSite enforces its checks in the stated order and the first
violation wins.  A field is missing when it is absent, `null` or the empty
string (the test `!field` of the handler).  (a) If `siteName`, `domains` or
`siteType` is missing the answer is MISSING_FIELDS, whatever the rest of the
request and the store; (b) otherwise a `siteName` longer than 15 gives
SITE_NAME_TOO_LONG; (c) otherwise a `siteType` outside the enumeration gives
INVALID_SITE_TYPE; (d) otherwise a site count that reached `maxSites` gives
SITE_QUOTA_EXCEEDED, whatever the domains are; and INVALID_DOMAIN is only
answered when (a) to (d) all pass. -/
theorem c3_createSite_check_order (env : Env) (w : World) (userId : String)
    (body : CreateSiteBody) :
    ((truthy body.siteName = false ∨ body.domains = none ∨ truthy body.siteType = false) →
      (createSite env w userId body).2 = errorJson "MISSING_FIELDS" "") ∧
    (∀ (siteName siteType : String) (domains : List String),
      body = ⟨some siteName, some domains, some siteType⟩ → siteName ≠ "" → siteType ≠ "" →
        (jsLength siteName > 15 →
          (createSite env w userId body).2 = errorJson "SITE_NAME_TOO_LONG" "") ∧
        (jsLength siteName ≤ 15 → siteType ∉ siteTypes →
          (createSite env w userId body).2 = errorJson "INVALID_SITE_TYPE" "") ∧
        (jsLength siteName ≤ 15 → siteType ∈ siteTypes →
          (resolveUser env w userId).maxSites ≤ (countSites w.sites userId : Int) →
          (createSite env w userId body).2 = errorJson "SITE_QUOTA_EXCEEDED" "")) ∧
    ((createSite env w userId body).2.code = some "INVALID_DOMAIN" →
      truthy body.siteName = true ∧ body.domains ≠ none ∧ truthy body.siteType = true ∧
        jsLength (body.siteName.getD "") ≤ 15 ∧ body.siteType.getD "" ∈ siteTypes ∧
        (countSites w.sites userId : Int) < (resolveUser env w userId).maxSites) := by
  refine ⟨?_, ?_, ?_⟩
  · intro h
    rw [createSite_missing env w userId body h]
  · rintro siteName siteType domains rfl hn ht
    rw [createSite_present env w userId _ (truthy_some _ hn) (by simp) (truthy_some _ ht)]
    simp only [Option.getD_some]
    refine ⟨?_, ?_, ?_⟩
    · intro h
      rw [if_pos h]
    · intro h1 h2
      rw [if_neg (by omega), if_pos ((not_contains_siteTypes _).2 h2)]
    · intro h1 h2 h3
      rw [if_neg (by omega), if_neg (by rw [not_contains_siteTypes]; exact not_not.2 h2),
        if_pos h3]
  · intro h
    by_cases h1 : truthy body.siteName = true
    · by_cases h2 : body.domains = none
      · rw [createSite_missing env w userId body (Or.inr (Or.inl h2))] at h
        exact absurd h (errorJson_code_ne _ _ _ _ (by decide))
      · by_cases h3 : truthy body.siteType = true
        · rw [createSite_present env w userId body h1 h2 h3] at h
          by_cases h4 : jsLength (body.siteName.getD "") > 15
          · rw [if_pos h4] at h
            exact absurd h (errorJson_code_ne _ _ _ _ (by decide))
          · rw [if_neg h4] at h
            by_cases h5 : body.siteType.getD "" ∈ siteTypes
            · rw [if_neg (by rw [not_contains_siteTypes]; exact not_not.2 h5)] at h
              by_cases h6 : (countSites w.sites userId : Int) ≥ (resolveUser env w userId).maxSites
              · rw [if_pos h6] at h
                exact absurd h (errorJson_code_ne _ _ _ _ (by decide))
              · exact ⟨h1, h2, h3, by omega, h5, by omega⟩
            · rw [if_pos ((not_contains_siteTypes _).2 h5)] at h
              exact absurd h (errorJson_code_ne _ _ _ _ (by decide))
        · rw [createSite_missing env w userId body (Or.inr (Or.inr (by simpa using h3)))] at h
          exact absurd h (errorJson_code_ne _ _ _ _ (by decide))
    · rw [createSite_missing env w userId body (Or.inl (by simpa using h1))] at h
      exact absurd h (errorJson_code_ne _ _ _ _ (by decide))

/-- C3 (witness): with the quota reached and the domain `bad/domain` invalid,
the answer is SITE_QUOTA_EXCEEDED; with `siteType` absent it is
MISSING_FIELDS although the name is too long. -/
theorem c3_createSite_check_order_witness :
    (createSite sampleEnv worldTwoSites "u1"
        ⟨some "Third", some ["bad/domain"], some "landing"⟩).2 =
        errorJson "SITE_QUOTA_EXCEEDED" "" ∧
      (createSite sampleEnv worldTwoSites "u1"
        ⟨some "A name of more than fifteen", some ["bad/domain"], none⟩).2 =
        errorJson "MISSING_FIELDS" "" :=
  ⟨((c3_createSite_check_order sampleEnv worldTwoSites "u1"
      ⟨some "Third", some ["bad/domain"], some "landing"⟩).2.1
      "Third" "landing" ["bad/domain"] rfl (by decide) (by decide)).2.2
      (by decide) (by decide) (by decide),
    (c3_createSite_check_order sampleEnv worldTwoSites "u1"
      ⟨some "A name of more than fifteen", some ["bad/domain"], none⟩).1
      (Or.inr (Or.inr rfl))⟩

/-! ## Lemmas on normalisation and on the checks of createSite -/

theorem domainChar_facts (c : Char) (h : domainChar c = true) :
    isJsWhiteSpace c = false ∧ c.toNat < 128 ∧ c.toLower = c := by
  have hcases : (97 ≤ c.toNat ∧ c.toNat ≤ 122) ∨ (48 ≤ c.toNat ∧ c.toNat ≤ 57) ∨
      c = '-' ∨ c = '.' ∨ c = ':' := by
    simp only [domainChar, clsLabel, clsLower, clsDigit, Bool.or_eq_true, decide_eq_true_eq,
      beq_iff_eq] at h
    rcases h with (((h | h) | h) | h) | h
    · exact Or.inl h
    · exact Or.inr (Or.inl h)
    · exact Or.inr (Or.inr (Or.inl h))
    · exact Or.inr (Or.inr (Or.inr (Or.inl h)))
    · exact Or.inr (Or.inr (Or.inr (Or.inr h)))
  have hlow : ¬ (c.toNat ≥ 65 ∧ c.toNat ≤ 90) → c.toLower = c := by
    intro hn
    unfold Char.toLower
    simp only
    rw [if_neg hn]
  have hws : ∀ n : Nat, (33 ≤ n ∧ n ≤ 127) → c.toNat = n → isJsWhiteSpace c = false := by
    intro n hn hc
    have hv : c.val.toNat = n := hc
    unfold isJsWhiteSpace
    simp only [hv]
    have h1 : (decide (9 ≤ n) && decide (n ≤ 13)) = false := by
      rw [Bool.and_eq_false_iff]; right; simp; omega
    have h2 : (decide (8192 ≤ n) && decide (n ≤ 8202)) = false := by
      rw [Bool.and_eq_false_iff]; left; simp; omega
    have h3 : ∀ k : Nat, 127 < k → (n == k) = false := by
      intro k hk; simp; omega
    have h4 : (n == 32) = false := by simp; omega
    simp [h1, h2, h3, h4]
  rcases hcases with h | h | rfl | rfl | rfl
  · exact ⟨hws _ ⟨by omega, by omega⟩ rfl, by omega, hlow (by omega)⟩
  · exact ⟨hws _ ⟨by omega, by omega⟩ rfl, by omega, hlow (by omega)⟩
  · decide
  · decide
  · decide

theorem dropWhile_eq_self {α : Type} (p : α → Bool) (l : List α)
    (h : ∀ x ∈ l, p x = false) : l.dropWhile p = l := by
  cases l with
  | nil => rfl
  | cons a t => simp [List.dropWhile, h a (by simp)]

theorem jsTrim_of_domainChars (s : String) (h : ∀ c ∈ s.data, domainChar c = true) :
    jsTrim s = s := by
  have hw : ∀ c ∈ s.data, isJsWhiteSpace c = false := fun c hc => (domainChar_facts c (h c hc)).1
  unfold jsTrim
  rw [dropWhile_eq_self _ _ hw, dropWhile_eq_self _ _ (by simpa using hw), List.reverse_reverse]

theorem jsToLowerCase_of_domainChars (f : String → String) (s : String)
    (h : ∀ c ∈ s.data, domainChar c = true) : jsToLowerCase f s = s := by
  unfold jsToLowerCase
  rw [if_pos]
  · have : s.data.map Char.toLower = s.data := by
      conv_rhs => rw [← List.map_id s.data]
      apply List.map_congr_left
      intro c hc
      exact (domainChar_facts c (h c hc)).2.2
    rw [this]
  · rw [List.all_eq_true]
    intro c hc
    simpa using (domainChar_facts c (h c hc)).2.1

theorem stored_value_of_valid (f : String → String) (v : String) (h : isValidDomain v = true) :
    jsTrim (jsToLowerCase f v) = v := by
  rw [jsToLowerCase_of_domainChars f v (isValidDomain_chars v h),
    jsTrim_of_domainChars v (isValidDomain_chars v h)]

theorem checkDomains_none_iff (sites : List Site) (ds : List Domain) :
    checkDomains sites ds = none ↔
      ∀ d ∈ ds, isValidDomain d.value = true ∧ findLockedDomain sites d.value = none := by
  induction ds with
  | nil => simp [checkDomains]
  | cons d rest ih =>
    unfold checkDomains
    by_cases hv : isValidDomain d.value = true
    · cases hl : findLockedDomain sites d.value with
      | none => simp [hv, hl, ih]
      | some x => simp [hv, hl]
    · simp [hv]

theorem checkDomains_code (sites : List Site) (ds : List Domain) (r : Response)
    (h : checkDomains sites ds = some r) :
    r.code = some "INVALID_DOMAIN" ∨ r.code = some "DOMAIN_ALREADY_EXISTS" := by
  induction ds with
  | nil => simp [checkDomains] at h
  | cons d rest ih =>
    unfold checkDomains at h
    by_cases hv : isValidDomain d.value = true
    · cases hl : findLockedDomain sites d.value with
      | none =>
        simp only [hv, hl, Bool.not_true, Bool.false_eq_true, if_false] at h
        exact ih h
      | some x =>
        simp only [hv, hl, Bool.not_true, Bool.false_eq_true, if_false, Option.some.injEq] at h
        right
        rw [← h]
        rfl
    · simp only [hv, Bool.not_false, if_true, Option.some.injEq] at h
      left
      rw [← h]
      rfl

theorem checkDomains_first_invalid (sites : List Site) (pre post : List Domain) (bad : Domain)
    (hpre : ∀ d ∈ pre, isValidDomain d.value = true ∧ findLockedDomain sites d.value = none)
    (hbad : isValidDomain bad.value = false) :
    checkDomains sites (pre ++ bad :: post) =
      some (errorJson "INVALID_DOMAIN" ("Domaine invalide: " ++ bad.value)) := by
  induction pre with
  | nil => simp [checkDomains, hbad]
  | cons d rest ih =>
    have hd := hpre d (by simp)
    simp only [List.cons_append, checkDomains, hd.1, hd.2, Bool.not_true, Bool.false_eq_true,
      if_false]
    exact ih (fun x hx => hpre x (by simp [hx]))

theorem syncSiteCreated_users (env : Env) (w : World) (userId : String) (userDoc : User)
    (siteName : String) (site : Site) (n : Nat) :
    (syncSiteCreated env w userId userDoc siteName site n).users = w.users := by
  unfold syncSiteCreated setCustomUserClaims
  split
  · rfl
  · split <;> rfl

theorem syncSiteCreated_sites (env : Env) (w : World) (userId : String) (userDoc : User)
    (siteName : String) (site : Site) (n : Nat) :
    (syncSiteCreated env w userId userDoc siteName site n).sites = w.sites := by
  unfold syncSiteCreated setCustomUserClaims
  split
  · rfl
  · split <;> rfl

theorem saveAndRespond_result (env : Env) (w : World) (userId : String) (userDoc : User)
    (siteName : String) (fd : List Domain) (siteType : String) :
    (∃ r, saveAndRespond env w userId userDoc siteName fd siteType = (w, r) ∧
      ((validateSite (newSite env userId siteName fd siteType env.randomUUID) ≠ [] ∧
          r.code = some "INVALID_INPUT") ∨
        (validateSite (newSite env userId siteName fd siteType env.randomUUID) = [] ∧
          preSave (newSite env userId siteName fd siteType env.randomUUID) ≠ none ∧
          r.code = some "SERVER_ERROR") ∨
        (validateSite (newSite env userId siteName fd siteType env.randomUUID) = [] ∧
          preSave (newSite env userId siteName fd siteType env.randomUUID) = none ∧
          duplicateKey w.sites (newSite env userId siteName fd siteType env.randomUUID) = true ∧
          r = errorJson "SITE_NAME_EXISTS" ""))) ∨
    (validateSite (newSite env userId siteName fd siteType env.randomUUID) = [] ∧
      preSave (newSite env userId siteName fd siteType env.randomUUID) = none ∧
      duplicateKey w.sites (newSite env userId siteName fd siteType env.randomUUID) = false ∧
      saveAndRespond env w userId userDoc siteName fd siteType =
        (syncSiteCreated env
            { w with sites := w.sites ++ [newSite env userId siteName fd siteType env.randomUUID] }
            userId userDoc siteName (newSite env userId siteName fd siteType env.randomUUID)
            (countSites (w.sites ++ [newSite env userId siteName fd siteType env.randomUUID])
              userId),
          .ok [("data", .str env.randomUUID), ("token", .str "reload")])) := by
  unfold saveAndRespond saveSite
  by_cases hv : validateSite (newSite env userId siteName fd siteType env.randomUUID) = []
  · cases hp : preSave (newSite env userId siteName fd siteType env.randomUUID) with
    | some m =>
      left
      exact ⟨errorJson "SERVER_ERROR" m, by simp [hv, hp], Or.inr (Or.inl ⟨hv, by simp, rfl⟩)⟩
    | none =>
      cases hd : duplicateKey w.sites (newSite env userId siteName fd siteType env.randomUUID) with
      | true =>
        left
        exact ⟨errorJson "SITE_NAME_EXISTS" "", by simp [hv, hp, hd],
          Or.inr (Or.inr ⟨hv, rfl, rfl, rfl⟩)⟩
      | false =>
        right
        exact ⟨hv, rfl, rfl, by simp [hv, hp, hd]⟩
  · left
    exact ⟨errorJson "INVALID_INPUT" (", ".intercalate
      (validateSite (newSite env userId siteName fd siteType env.randomUUID))),
      by simp [hv], Or.inl ⟨hv, rfl⟩⟩

theorem createSite_result (env : Env) (w : World) (userId : String) (body : CreateSiteBody) :
    (∃ r code, createSite env w userId body = (ensureUser env w userId, r) ∧
      r.code = some code) ∨
    (∃ (siteName siteType : String) (domains : List String),
      body = ⟨some siteName, some domains, some siteType⟩ ∧ siteName ≠ "" ∧
      jsLength siteName ≤ 15 ∧ siteType ∈ siteTypes ∧
      (countSites w.sites userId : Int) < (resolveUser env w userId).maxSites ∧
      checkDomains w.sites (formatDomains env domains) = none ∧
      validateSite
        (newSite env userId siteName (formatDomains env domains) siteType env.randomUUID) = [] ∧
      preSave
        (newSite env userId siteName (formatDomains env domains) siteType env.randomUUID) =
          none ∧
      duplicateKey w.sites
        (newSite env userId siteName (formatDomains env domains) siteType env.randomUUID) =
          false ∧
      createSite env w userId body =
        (syncSiteCreated env
            { ensureUser env w userId with
              sites := w.sites ++
                [newSite env userId siteName (formatDomains env domains) siteType
                  env.randomUUID] }
            userId (resolveUser env w userId) siteName
            (newSite env userId siteName (formatDomains env domains) siteType env.randomUUID)
            (countSites
              (w.sites ++
                [newSite env userId siteName (formatDomains env domains) siteType
                  env.randomUUID]) userId),
          .ok [("data", .str env.randomUUID), ("token", .str "reload")])) := by
  obtain ⟨sn, dm, st⟩ := body
  by_cases h1 : truthy sn = true
  swap
  · left
    exact ⟨_, _, createSite_missing _ _ _ _ (Or.inl (by simpa using h1)), rfl⟩
  by_cases h2 : dm = none
  · left
    exact ⟨_, _, createSite_missing _ _ _ _ (Or.inr (Or.inl h2)), rfl⟩
  by_cases h3 : truthy st = true
  swap
  · left
    exact ⟨_, _, createSite_missing _ _ _ _ (Or.inr (Or.inr (by simpa using h3))), rfl⟩
  obtain ⟨siteName, rfl⟩ : ∃ x, sn = some x := by
    cases sn with
    | none => simp [truthy] at h1
    | some x => exact ⟨x, rfl⟩
  obtain ⟨domains, rfl⟩ : ∃ x, dm = some x := by
    cases dm with
    | none => exact absurd rfl h2
    | some x => exact ⟨x, rfl⟩
  obtain ⟨siteType, rfl⟩ : ∃ x, st = some x := by
    cases st with
    | none => simp [truthy] at h3
    | some x => exact ⟨x, rfl⟩
  have hn : siteName ≠ "" := by simpa [truthy] using h1
  rw [createSite_present _ _ _ _ h1 h2 h3]
  simp only [Option.getD_some]
  by_cases h4 : jsLength siteName > 15
  · left
    rw [if_pos h4]
    exact ⟨_, _, rfl, rfl⟩
  rw [if_neg h4]
  by_cases h5 : siteType ∈ siteTypes
  swap
  · left
    rw [if_pos ((not_contains_siteTypes _).2 h5)]
    exact ⟨_, _, rfl, rfl⟩
  rw [if_neg (by rw [not_contains_siteTypes]; exact not_not.2 h5)]
  by_cases h6 : (countSites w.sites userId : Int) ≥ (resolveUser env w userId).maxSites
  · left
    rw [if_pos h6]
    exact ⟨_, _, rfl, rfl⟩
  rw [if_neg h6]
  cases hc : checkDomains w.sites (formatDomains env domains) with
  | some r =>
    left
    rcases checkDomains_code _ _ _ hc with h | h
    · exact ⟨r, _, rfl, h⟩
    · exact ⟨r, _, rfl, h⟩
  | none =>
    simp only
    rcases saveAndRespond_result env (ensureUser env w userId) userId (resolveUser env w userId)
      siteName (formatDomains env domains) siteType with ⟨r, hr, hcode⟩ | ⟨hv, hp, hd, hr⟩
    · left
      rw [hr]
      rcases hcode with ⟨-, h⟩ | ⟨-, -, h⟩ | ⟨-, -, -, rfl⟩
      · exact ⟨r, _, rfl, h⟩
      · exact ⟨r, _, rfl, h⟩
      · exact ⟨_, _, rfl, rfl⟩
    · right
      rw [ensureUser_sites] at hd hr
      exact ⟨siteName, siteType, domains, rfl, hn, by omega, h5, by omega, hc, hv, hp, hd, hr⟩

/-! ## Lemmas on the stored document and on the names of an owner -/

theorem newSite_domains_of_checked (env : Env) (sites : List Site) (userId siteName : String)
    (domains : List String) (siteType apiKey : String)
    (h : checkDomains sites (formatDomains env domains) = none) :
    (newSite env userId siteName (formatDomains env domains) siteType apiKey).domains =
      formatDomains env domains := by
  have hall := (checkDomains_none_iff _ _).1 h
  unfold newSite
  simp only
  conv_rhs => rw [← List.map_id (formatDomains env domains)]
  apply List.map_congr_left
  intro d hd
  have hv := (hall d hd).1
  rw [stored_value_of_valid _ _ hv]
  rfl

theorem sitesNamed_length_one (sites : List Site) (userId siteName : String)
    (huniq : UniqueNames sites)
    (hex : ∃ s ∈ sites, s.userId = userId ∧ s.siteName = siteName) :
    (sitesNamed sites userId siteName).length = 1 := by
  induction sites with
  | nil => simp at hex
  | cons a t ih =>
    unfold UniqueNames at huniq
    rw [List.pairwise_cons] at huniq
    by_cases ha : a.userId = userId ∧ a.siteName = siteName
    · have ht : sitesNamed t userId siteName = [] := by
        unfold sitesNamed
        rw [List.filter_eq_nil_iff]
        intro b hb hm
        simp only [Bool.and_eq_true, beq_iff_eq] at hm
        exact huniq.1 b hb ⟨ha.1.trans hm.1.symm, ha.2.trans hm.2.symm⟩
      unfold sitesNamed at ht ⊢
      simp [List.filter_cons, ha.1, ha.2, ht]
    · have hex2 : ∃ s ∈ t, s.userId = userId ∧ s.siteName = siteName := by
        obtain ⟨s, hs, hp⟩ := hex
        rcases List.mem_cons.1 hs with rfl | hs
        · exact absurd hp ha
        · exact ⟨s, hs, hp⟩
      have := ih huniq.2 hex2
      unfold sitesNamed at this ⊢
      have hf : (a.userId == userId && a.siteName == siteName) = false := by
        rw [Bool.eq_false_iff]
        intro hm
        simp only [Bool.and_eq_true, beq_iff_eq] at hm
        exact ha hm
      rw [List.filter_cons, hf]
      simpa using this

/-! ## Claim C8: effects of a createSite that answers an error -/

/-- C8 (counterexample): on an empty store a request without `siteType` is
answered MISSING_FIELDS, and the User collection has gained the default
document of the caller: the handler creates it before it reads the body. -/
theorem c8_user_created_before_validation :
    findUser emptyWorld.users "u1" = none ∧
      (createSite sampleEnv emptyWorld "u1"
        ⟨some "Shop", some ["shop.example.com"], none⟩).2.code = some "MISSING_FIELDS" ∧
      (createSite sampleEnv emptyWorld "u1"
        ⟨some "Shop", some ["shop.example.com"], none⟩).1.users =
        [defaultUser sampleEnv "u1"] ∧
      (createSite sampleEnv emptyWorld "u1"
        ⟨some "Shop", some ["shop.example.com"], none⟩).1.users ≠ emptyWorld.users := by
  refine ⟨by decide, by decide, by decide, by decide⟩

/-- C8 (amended): whenever createSite answers an error (MISSING_FIELDS,
SITE_NAME_TOO_LONG, INVALID_SITE_TYPE, INVALID_DOMAIN, DOMAIN_ALREADY_EXISTS
and SITE_NAME_EXISTS among them), the Site collection and the claims of the
identity provider are as before the call; the User collection is as before
when the caller had a User document, and otherwise it has gained exactly the
default User document of the caller. -/
theorem c8_createSite_error_effects (env : Env) (w : World) (userId : String)
    (body : CreateSiteBody) (code : String)
    (h : (createSite env w userId body).2.code = some code) :
    (createSite env w userId body).1.sites = w.sites ∧
      (createSite env w userId body).1.claims = w.claims ∧
      (findUser w.users userId ≠ none → (createSite env w userId body).1.users = w.users) ∧
      (findUser w.users userId = none →
        (createSite env w userId body).1.users = w.users ++ [defaultUser env userId]) := by
  have hstate : (createSite env w userId body).1 = ensureUser env w userId := by
    rcases createSite_result env w userId body with ⟨r, c, hr, -⟩ | ⟨_, _, _, _, _, _, _, _, _, _, _, _, hr⟩
    · rw [hr]
    · rw [hr] at h
      exact absurd h (by simp [Response.code])
  rw [hstate]
  refine ⟨ensureUser_sites env w userId, ensureUser_claims env w userId, ?_, ?_⟩
  · intro hu
    unfold ensureUser
    cases hf : findUser w.users userId with
    | none => exact absurd hf hu
    | some u => rfl
  · intro hu
    unfold ensureUser
    rw [hu]

/-- C8 (witness): a second site named `Shop` for `u1` is answered
SITE_NAME_EXISTS. -/
theorem c8_createSite_error_effects_witness :
    (createSite sampleEnv worldOneSite "u1"
        ⟨some "Shop", some ["shop2.example.com"], some "vitrine"⟩).2.code =
        some "SITE_NAME_EXISTS" ∧
      (createSite sampleEnv worldOneSite "u1"
        ⟨some "Shop", some ["shop2.example.com"], some "vitrine"⟩).1.sites =
        worldOneSite.sites :=
  ⟨by decide,
    (c8_createSite_error_effects sampleEnv worldOneSite "u1"
      ⟨some "Shop", some ["shop2.example.com"], some "vitrine"⟩ "SITE_NAME_EXISTS"
      (by decide)).1⟩

/-! ## Claim C7: the success response of createSite -/

theorem prefix_ne_empty (envVar : Option String) : PUBLIC_API_KEY_PREFIX envVar ≠ "" := by
  unfold PUBLIC_API_KEY_PREFIX
  cases envVar with
  | none => decide
  | some v =>
    by_cases hv : v = ""
    · simp only [hv, if_true]
      decide
    · simp [hv]

theorem prefix_append_ne (envVar : Option String) (suffix : String) :
    PUBLIC_API_KEY_PREFIX envVar ++ suffix ≠ suffix := by
  intro h
  have hlen := congrArg String.length h
  rw [String.length_append] at hlen
  have hp : (PUBLIC_API_KEY_PREFIX envVar).length ≠ 0 := by
    intro h0
    apply prefix_ne_empty envVar
    apply String.ext
    exact List.length_eq_zero.1 h0
  omega

/-- C7 (counterexample): a successful createSite answers the fields `data` and
`token` and no field `apiKey`; `data` is the generated suffix alone, the one
stored on the Site document, and differs from the default prefix
`gratias_public_` followed by the suffix. -/
theorem c7_response_is_suffix_only :
    (createSite sampleEnv emptyWorld "u1"
        ⟨some "Shop", some ["shop.example.com"], some "vitrine"⟩).2.field "data" =
        some (.str sampleEnv.randomUUID) ∧
      (createSite sampleEnv emptyWorld "u1"
        ⟨some "Shop", some ["shop.example.com"], some "vitrine"⟩).2.field "apiKey" = none ∧
      (createSite sampleEnv emptyWorld "u1"
        ⟨some "Shop", some ["shop.example.com"], some "vitrine"⟩).2.field "token" =
        some (.str "reload") ∧
      (createSite sampleEnv emptyWorld "u1"
        ⟨some "Shop", some ["shop.example.com"], some "vitrine"⟩).1.sites.map Site.apiKey =
        [sampleEnv.randomUUID] ∧
      PUBLIC_API_KEY_PREFIX none = "gratias_public_" ∧
      PUBLIC_API_KEY_PREFIX none ++ sampleEnv.randomUUID ≠ sampleEnv.randomUUID := by
  refine ⟨rfl, rfl, rfl, by decide, rfl, by decide⟩

/-- C7 (amended): for every request on which createSite succeeds, the response
body is exactly `data` = the generated suffix and `token` = `reload`; the
suffix is the `apiKey` stored on the Site document the call added; and the
configured public prefix, which is never empty, is not part of `data`. -/
theorem c7_createSite_success_response (env : Env) (w : World) (userId : String)
    (body : CreateSiteBody) (fields : List (String × Json))
    (h : (createSite env w userId body).2 = .ok fields) :
    fields = [("data", .str env.randomUUID), ("token", .str "reload")] ∧
      (∃ site : Site, (createSite env w userId body).1.sites = w.sites ++ [site] ∧
        site.apiKey = env.randomUUID) ∧
      ∀ envVar : Option String,
        (createSite env w userId body).2.field "data" ≠
          some (.str (PUBLIC_API_KEY_PREFIX envVar ++ env.randomUUID)) := by
  rcases createSite_result env w userId body with
    ⟨r, c, hr, hc⟩ | ⟨siteName, siteType, domains, _, _, _, _, _, _, _, _, _, hr⟩
  · rw [hr] at h
    simp only at h
    rw [h] at hc
    simp [Response.code] at hc
  · rw [hr] at h ⊢
    simp only [Response.ok.injEq] at h
    refine ⟨h.symm,
      ⟨newSite env userId siteName (formatDomains env domains) siteType env.randomUUID, ?_, rfl⟩,
      ?_⟩
    · simp only [syncSiteCreated_sites]
    · intro envVar hf
      simp only [Response.field, Claims.get, List.find?, beq_self_eq_true, Option.map_some',
        Option.some.injEq, Json.str.injEq] at hf
      exact prefix_append_ne envVar env.randomUUID hf.symm

/-- C7 (witness): the first site of `u1` on an empty store. -/
theorem c7_createSite_success_response_witness :
    [("data", Json.str sampleEnv.randomUUID), ("token", Json.str "reload")] =
        [("data", .str sampleEnv.randomUUID), ("token", .str "reload")] ∧
      (∃ site : Site,
        (createSite sampleEnv emptyWorld "u1"
          ⟨some "Shop", some ["shop.example.com"], some "vitrine"⟩).1.sites =
          emptyWorld.sites ++ [site] ∧
        site.apiKey = sampleEnv.randomUUID) ∧
      ∀ envVar : Option String,
        (createSite sampleEnv emptyWorld "u1"
          ⟨some "Shop", some ["shop.example.com"], some "vitrine"⟩).2.field "data" ≠
          some (.str (PUBLIC_API_KEY_PREFIX envVar ++ sampleEnv.randomUUID)) :=
  c7_createSite_success_response sampleEnv emptyWorld "u1"
    ⟨some "Shop", some ["shop.example.com"], some "vitrine"⟩
    [("data", .str sampleEnv.randomUUID), ("token", .str "reload")] rfl

/-! ## Claim C9: the persisted Site -/

theorem validateSite_nil (doc : Site) (h : validateSite doc = []) :
    doc.siteName ≠ "" ∧ jsLength doc.siteName ≤ 15 ∧ doc.siteType ∈ siteTypes := by
  unfold validateSite at h
  rw [List.append_eq_nil] at h
  obtain ⟨h1, h2⟩ := h
  by_cases hn : doc.siteName = ""
  · simp [hn] at h1
  · by_cases hl : jsLength doc.siteName > 15
    · simp [hn, hl] at h1
    · by_cases ht : doc.siteType = ""
      · simp [ht] at h2
      · by_cases hm : doc.siteType ∈ siteTypes
        · exact ⟨hn, by omega, hm⟩
        · simp [ht, hm] at h2

theorem preSave_none (doc : Site) (h : preSave doc = none) : doc.domains ≠ [] := by
  intro hd
  unfold preSave at h
  simp [hd] at h

/-- C9: the Site document a successful createSite writes has a non-empty
`domains`, holding for each input value its trimmed, lower-cased form, which
satisfies isValidDomain, with `locked = false`; its `siteName` has length at
most 15 and its `siteType` is one of the enumeration.  A request whose
`domains` is an empty array is answered an error and persists no Site. -/
theorem c9_persisted_site_invariant (env : Env) (w : World) (userId : String)
    (body : CreateSiteBody) :
    ((∃ fields, (createSite env w userId body).2 = .ok fields) →
      ∃ (site : Site) (domains : List String),
        body.domains = some domains ∧
        (createSite env w userId body).1.sites = w.sites ++ [site] ∧
        site.domains ≠ [] ∧
        site.domains.map Domain.value = domains.map (normalizeDomain env) ∧
        (∀ d ∈ site.domains, isValidDomain d.value = true ∧ d.locked = false) ∧
        jsLength site.siteName ≤ 15 ∧ site.siteType ∈ siteTypes) ∧
    (body.domains = some [] →
      (∃ code, (createSite env w userId body).2.code = some code) ∧
        (createSite env w userId body).1.sites = w.sites) := by
  rcases createSite_result env w userId body with
    ⟨r, c, hr, hc⟩ | ⟨siteName, siteType, domains, rfl, _, _, _, _, hcd, hv, hp, _, hr⟩
  · refine ⟨?_, ?_⟩
    · rintro ⟨fields, hf⟩
      rw [hr] at hf
      simp only at hf
      rw [hf] at hc
      simp [Response.code] at hc
    · intro _
      rw [hr]
      exact ⟨⟨c, hc⟩, ensureUser_sites env w userId⟩
  · have hdom := newSite_domains_of_checked env w.sites userId siteName domains siteType
      env.randomUUID hcd
    refine ⟨?_, ?_⟩
    · intro _
      refine ⟨newSite env userId siteName (formatDomains env domains) siteType env.randomUUID,
        domains, rfl, ?_, preSave_none _ hp, ?_, ?_, (validateSite_nil _ hv).2.1,
        (validateSite_nil _ hv).2.2⟩
      · rw [hr]
        simp only [syncSiteCreated_sites]
      · rw [hdom]
        simp [formatDomains]
      · intro d hd
        rw [hdom] at hd
        refine ⟨((checkDomains_none_iff _ _).1 hcd d hd).1, ?_⟩
        obtain ⟨x, -, rfl⟩ := List.mem_map.1 hd
        rfl
    · intro he
      simp only [Option.some.injEq] at he
      subst he
      exact absurd (by rw [hdom]; rfl) (preSave_none _ hp)

/-- C9 (witness): the site `Shop` created from ` Shop.Example.COM ` stores
`shop.example.com`; the same request with an empty `domains` stores nothing. -/
theorem c9_persisted_site_invariant_witness :
    (∃ (site : Site) (domains : List String),
        some [" Shop.Example.COM "] = some domains ∧
        (createSite sampleEnv emptyWorld "u1"
          ⟨some "Shop", some [" Shop.Example.COM "], some "vitrine"⟩).1.sites =
          emptyWorld.sites ++ [site] ∧
        site.domains ≠ [] ∧
        site.domains.map Domain.value = domains.map (normalizeDomain sampleEnv) ∧
        (∀ d ∈ site.domains, isValidDomain d.value = true ∧ d.locked = false) ∧
        jsLength site.siteName ≤ 15 ∧ site.siteType ∈ siteTypes) ∧
      ((∃ code, (createSite sampleEnv emptyWorld "u1"
          ⟨some "Shop", some [], some "vitrine"⟩).2.code = some code) ∧
        (createSite sampleEnv emptyWorld "u1"
          ⟨some "Shop", some [], some "vitrine"⟩).1.sites = emptyWorld.sites) :=
  ⟨(c9_persisted_site_invariant sampleEnv emptyWorld "u1"
      ⟨some "Shop", some [" Shop.Example.COM "], some "vitrine"⟩).1 ⟨_, rfl⟩,
    (c9_persisted_site_invariant sampleEnv emptyWorld "u1"
      ⟨some "Shop", some [], some "vitrine"⟩).2 rfl⟩

/-! ## Claim C2: uniqueness of the site name -/

/-- C2 (counterexample): `u1` owns the site `Shop`; a request for `Shop` with
an empty `domains` array passes the field, length, type and quota checks and
the loop over the domains, and is answered SERVER_ERROR, the error of the
`pre('save')` hook, not SITE_NAME_EXISTS. -/
theorem c2_empty_domains_server_error :
    (∃ s ∈ worldOneSite.sites, s.userId = "u1" ∧ s.siteName = "Shop") ∧
      truthy (some "Shop") = true ∧ jsLength "Shop" ≤ 15 ∧ "vitrine" ∈ siteTypes ∧
      (countSites worldOneSite.sites "u1" : Int) <
        (resolveUser sampleEnv worldOneSite "u1").maxSites ∧
      (checkDomains worldOneSite.sites (formatDomains sampleEnv [])).isNone = true ∧
      (createSite sampleEnv worldOneSite "u1"
        ⟨some "Shop", some [], some "vitrine"⟩).2.code = some "SERVER_ERROR" := by
  refine ⟨⟨_, List.mem_singleton.2 rfl, rfl, rfl⟩, by decide, by decide, by decide, by decide,
    rfl, by decide⟩

/-- C2 (amended): in a store that respects the unique index on
`(userId, siteName)` and holds names trimmed, if the owner already has a site
named `siteName`, a createSite request of that owner with that name and at
least one domain, which passes the field, length, type, quota and domain
checks, is answered SITE_NAME_EXISTS; the Site collection is unchanged and
still holds exactly one site with that owner and name. -/
theorem c2_createSite_name_exists (env : Env) (w : World)
    (userId siteName siteType : String) (domains : List String)
    (huniq : UniqueNames w.sites) (htrim : NamesTrimmed w.sites)
    (hex : ∃ s ∈ w.sites, s.userId = userId ∧ s.siteName = siteName)
    (hname : siteName ≠ "") (hlen : jsLength siteName ≤ 15) (htype : siteType ∈ siteTypes)
    (hquota : (countSites w.sites userId : Int) < (resolveUser env w userId).maxSites)
    (hdom : checkDomains w.sites (formatDomains env domains) = none)
    (hne : domains ≠ []) :
    (createSite env w userId ⟨some siteName, some domains, some siteType⟩).2 =
        errorJson "SITE_NAME_EXISTS" "" ∧
      (createSite env w userId ⟨some siteName, some domains, some siteType⟩).1.sites =
        w.sites ∧
      (sitesNamed
        (createSite env w userId ⟨some siteName, some domains, some siteType⟩).1.sites
        userId siteName).length = 1 := by
  have htr : jsTrim siteName = siteName := by
    obtain ⟨s, hs, -, rfl⟩ := hex
    exact htrim s hs
  have hdup : duplicateKey w.sites
      (newSite env userId siteName (formatDomains env domains) siteType env.randomUUID) =
        true := by
    obtain ⟨s, hs, hu, hn⟩ := hex
    unfold duplicateKey
    rw [List.any_eq_true]
    refine ⟨s, hs, ?_⟩
    simp [newSite, hu, hn, htr]
  have hval : validateSite
      (newSite env userId siteName (formatDomains env domains) siteType env.randomUUID) =
        [] := by
    have h1 : ¬ (jsLength siteName > 15) := by omega
    simp [validateSite, newSite, htr, hname, h1, siteType_ne_empty _ htype, htype]
  have hpre : preSave
      (newSite env userId siteName (formatDomains env domains) siteType env.randomUUID) =
        none := by
    have hd := newSite_domains_of_checked env w.sites userId siteName domains siteType
      env.randomUUID hdom
    have hall := (checkDomains_none_iff _ _).1 hdom
    unfold preSave
    rw [hd]
    have hlen0 : (formatDomains env domains).length ≠ 0 := by
      simp [formatDomains, hne]
    rw [if_neg hlen0]
    have hfind : (formatDomains env domains).find? (fun d => !isValidDomain d.value) = none := by
      rw [List.find?_eq_none]
      intro d hd2
      simp [(hall d hd2).1]
    rw [hfind]
  have hres : createSite env w userId ⟨some siteName, some domains, some siteType⟩ =
      (ensureUser env w userId, errorJson "SITE_NAME_EXISTS" "") := by
    rw [createSite_present env w userId _ (truthy_some _ hname) (by simp)
      (truthy_some _ (siteType_ne_empty _ htype))]
    simp only [Option.getD_some]
    rw [if_neg (by omega), if_neg (by rw [not_contains_siteTypes]; exact not_not.2 htype),
      if_neg (by omega), hdom]
    simp only
    rcases saveAndRespond_result env (ensureUser env w userId) userId (resolveUser env w userId)
      siteName (formatDomains env domains) siteType with ⟨r, hr, hcode⟩ | ⟨_, _, hd, _⟩
    · rw [hr]
      rcases hcode with ⟨hv, -⟩ | ⟨-, hp, -⟩ | ⟨-, -, -, rfl⟩
      · exact absurd hval hv
      · exact absurd hpre hp
      · rfl
    · rw [ensureUser_sites, hdup] at hd
      exact absurd hd (by simp)
  rw [hres]
  refine ⟨rfl, ensureUser_sites env w userId, ?_⟩
  simp only [ensureUser_sites]
  exact sitesNamed_length_one w.sites userId siteName huniq hex

/-- C2 (witness): `u1` owns `Shop` and asks for a second `Shop`. -/
theorem c2_createSite_name_exists_witness :
    (createSite sampleEnv worldOneSite "u1"
        ⟨some "Shop", some ["shop2.example.com"], some "vitrine"⟩).2 =
        errorJson "SITE_NAME_EXISTS" "" ∧
      (createSite sampleEnv worldOneSite "u1"
        ⟨some "Shop", some ["shop2.example.com"], some "vitrine"⟩).1.sites =
        worldOneSite.sites ∧
      (sitesNamed
        (createSite sampleEnv worldOneSite "u1"
          ⟨some "Shop", some ["shop2.example.com"], some "vitrine"⟩).1.sites
        "u1" "Shop").length = 1 :=
  c2_createSite_name_exists sampleEnv worldOneSite "u1" "Shop" "vitrine" ["shop2.example.com"]
    (by simp [UniqueNames, worldOneSite])
    (by
      intro s hs
      simp only [worldOneSite, List.mem_singleton] at hs
      subst hs
      decide)
    ⟨_, List.mem_singleton.2 rfl, rfl, rfl⟩ (by decide) (by decide) (by decide) (by decide)
    (by rfl) (by decide)

/-! ## Lemmas on JSON objects and on the claims the handlers write -/

theorem find_map_set {β : Type} (c : List (String × β)) (k : String) (v : β)
    (h : c.any (fun kv => kv.1 == k) = true) :
    (c.map (fun kv => if kv.1 == k then (k, v) else kv)).find? (fun kv => kv.1 == k) =
      some (k, v) := by
  induction c with
  | nil => simp at h
  | cons a t ih =>
    by_cases ha : a.1 = k
    · simp [List.find?, ha]
    · have ht : t.any (fun kv => kv.1 == k) = true := by
        simpa [ha] using h
      simp only [List.map_cons, ha, beq_iff_eq, if_false, List.find?]
      have : (a.1 == k) = false := by simpa using ha
      rw [this]
      simpa using ih ht

theorem find_map_set_ne (c : Claims) (k k2 : String) (v : Json) (hne : k2 ≠ k) :
    ((c.map (fun kv => if kv.1 == k then (k, v) else kv)).find? (fun kv => kv.1 == k2)).map
        (fun kv => kv.2) =
      (c.find? (fun kv => kv.1 == k2)).map (fun kv => kv.2) := by
  induction c with
  | nil => rfl
  | cons a t ih =>
    by_cases ha : a.1 = k
    · have h1 : (k == k2) = false := by simpa using fun h => hne h.symm
      have h2 : (a.1 == k2) = false := by rw [ha]; exact h1
      simp only [List.map_cons, ha, beq_self_eq_true, if_true, List.find?, h1, h2]
      exact ih
    · have h0 : (a.1 == k) = false := by simpa using ha
      simp only [List.map_cons, h0, Bool.false_eq_true, if_false, List.find?]
      cases h2 : (a.1 == k2)
      · exact ih
      · rfl

theorem get_set_same (c : Claims) (k : String) (v : Json) : (c.set k v).get k = some v := by
  unfold Claims.set Claims.get
  by_cases h : c.any (fun kv => kv.1 == k) = true
  · rw [if_pos h, find_map_set c k v h]
    rfl
  · rw [if_neg h]
    have hnone : c.find? (fun kv => kv.1 == k) = none := by
      rw [List.find?_eq_none]
      intro x hx hxk
      exact h (List.any_eq_true.2 ⟨x, hx, hxk⟩)
    rw [List.find?_append, hnone]
    simp [List.find?]

theorem get_set_ne (c : Claims) (k k2 : String) (v : Json) (hne : k2 ≠ k) :
    (c.set k v).get k2 = c.get k2 := by
  unfold Claims.set Claims.get
  by_cases h : c.any (fun kv => kv.1 == k) = true
  · rw [if_pos h]
    exact find_map_set_ne c k k2 v hne
  · rw [if_neg h, List.find?_append]
    have h1 : (k == k2) = false := by simpa using fun h => hne h.symm
    cases hf : c.find? (fun kv => kv.1 == k2) with
    | none => simp [List.find?, h1]
    | some x => simp

theorem customClaims_set (w : World) (uid : String) (c : Claims) :
    customClaims (setCustomUserClaims w uid c) uid = c := by
  unfold customClaims setCustomUserClaims
  simp only
  by_cases h : w.claims.any (fun e => e.1 == uid) = true
  · rw [if_pos h]
    rw [find_map_set w.claims uid c h]
  · rw [if_neg h]
    have hnone : w.claims.find? (fun e => e.1 == uid) = none := by
      rw [List.find?_eq_none]
      intro x hx hxk
      exact h (List.any_eq_true.2 ⟨x, hx, hxk⟩)
    rw [List.find?_append, hnone]
    simp [List.find?]
theorem pushMsg_eq_lastN (m : List Json) (e : String) :
    pushMsg m e = lastN (min 20 (m.length + 1)) (m ++ [Json.str e]) := by
  unfold pushMsg lastN MAX_MSGS
  simp only [List.length_append, List.length_singleton]
  by_cases h : m.length + 1 > 20
  · rw [if_pos h, Nat.min_eq_left (by omega)]
  · rw [if_neg h, Nat.min_eq_right (by omega), Nat.sub_self, List.drop_zero]

theorem pushMsg_length (m : List Json) (e : String) : (pushMsg m e).length ≤ 20 := by
  rw [pushMsg_eq_lastN]
  unfold lastN
  simp only [List.length_drop, List.length_append, List.length_singleton]
  omega

theorem lastN_getLast (m : List Json) (x : Json) (k : Nat) (hk : 1 ≤ k) :
    (lastN k (m ++ [x])).getLast? = some x := by
  unfold lastN
  rw [List.getLast?_drop]
  simp only [List.length_append, List.length_singleton]
  rw [if_neg (by omega)]
  simp

/-! ## Claims C11, C12: the bounded message history -/

/-- C11 (the code at the failing input): the site-creation sync never writes
more than 20 messages, whatever the history was; the email toggle, applied to
claims whose history holds 20 messages of created sites, writes 21. -/
theorem c11_email_toggle_exceeds_cap :
    (∀ (msgs : List Json) (msg : String), (pushMsg msgs msg).length ≤ 20) ∧
      (claimMsgs (customClaims worldFullHistory "u1")).length = 20 ∧
      (setEmailNotifications sampleEnv worldFullHistory "u1" ⟨some (.bool true)⟩).2.code =
        none ∧
      (claimMsgs (customClaims
        (setEmailNotifications sampleEnv worldFullHistory "u1" ⟨some (.bool true)⟩).1
        "u1")).length = 21 := by
  refine ⟨pushMsg_length, by decide, by decide, by decide⟩

/-- C12: in the site-creation sync, for every prior history `m` and event
message `e`, the `msgs` written back is the last `min(20, len(m)+1)` elements
of `m ++ [e]` in their order, so `e` is its last entry and what was evicted is
the oldest part of `m`; the field `msg` is `e`; and these are the claims the
handler writes when the identity provider answers. -/
theorem c12_site_sync_append_and_cap (claims : Claims) (m : List Json) (userDoc : User)
    (newSiteCount : Nat) (e : String) (hm : claims.get "msgs" = some (.arr m)) :
    (siteCreatedClaims claims userDoc newSiteCount e).get "msgs" =
        some (.arr (lastN (min 20 (m.length + 1)) (m ++ [Json.str e]))) ∧
      (lastN (min 20 (m.length + 1)) (m ++ [Json.str e])).getLast? = some (Json.str e) ∧
      (m ++ [Json.str e]).take (m.length + 1 - min 20 (m.length + 1)) ++
        lastN (min 20 (m.length + 1)) (m ++ [Json.str e]) = m ++ [Json.str e] ∧
      (siteCreatedClaims claims userDoc newSiteCount e).get "msg" = some (.str e) ∧
      ∀ (env : Env) (w : World) (userId siteName : String) (site : Site),
        env.getUserFails = false → env.setClaimsFails = false →
        customClaims w userId = claims →
        customClaims (syncSiteCreated env w userId userDoc siteName site newSiteCount) userId =
          siteCreatedClaims claims userDoc newSiteCount
            ("success.Site \"" ++ siteName ++ "\" créé le " ++ site.createdAt) := by
  have hcm : claimMsgs claims = m := by
    unfold claimMsgs
    rw [hm]
  refine ⟨?_, lastN_getLast m _ _ (by omega), ?_, ?_, ?_⟩
  · unfold siteCreatedClaims
    rw [get_set_same, hcm, pushMsg_eq_lastN]
  · unfold lastN
    simp only [List.length_append, List.length_singleton]
    exact List.take_append_drop _ _
  · unfold siteCreatedClaims
    rw [get_set_ne _ _ _ _ (by decide), get_set_same]
  · intro env w userId siteName site hg hs hc
    unfold syncSiteCreated
    simp only [hg, hs, Bool.false_eq_true, if_false]
    rw [customClaims_set, hc]

/-- C12 (witness): a history of 20 messages and one more event. -/
theorem c12_site_sync_append_and_cap_witness :
    (siteCreatedClaims (customClaims worldFullHistory "u1") sampleUser 2 "e").get "msgs" =
        some (.arr (lastN (min 20 (twentyMsgs.length + 1)) (twentyMsgs ++ [Json.str "e"]))) ∧
      (siteCreatedClaims (customClaims worldFullHistory "u1") sampleUser 2 "e").get "msg" =
        some (.str "e") :=
  ⟨(c12_site_sync_append_and_cap (customClaims worldFullHistory "u1") twentyMsgs sampleUser 2
      "e" rfl).1,
    (c12_site_sync_append_and_cap (customClaims worldFullHistory "u1") twentyMsgs sampleUser 2
      "e" rfl).2.2.2.1⟩
theorem keepMsg_eq (m : Json) : keepMsg m = isOtherStringEntry m := by
  cases m <;> rfl

theorem jsStartsWith_append (p r : String) : jsStartsWith (p ++ r) p = true := by
  unfold jsStartsWith
  rw [String.data_append, List.isPrefixOf_iff_prefix]
  exact List.prefix_append _ _

theorem isEmailEntry_emailMsg (enabled : Bool) (ts : String) :
    isEmailEntry (Json.str (emailMsg enabled ts)) = true := by
  unfold isEmailEntry emailMsg
  simp only [String.append_assoc]
  exact jsStartsWith_append emailPrefix _

theorem filter_email_of_other (l : List Json) :
    (l.filter isOtherStringEntry).filter isEmailEntry = [] := by
  rw [List.filter_filter, List.filter_eq_nil_iff]
  intro m _
  cases m <;> simp [isEmailEntry, isOtherStringEntry]

theorem emailMsgs_eq (claims : Claims) (enabled : Bool) (ts : String) :
    emailMsgs claims enabled ts =
      (claimMsgs claims).filter isOtherStringEntry ++ [Json.str (emailMsg enabled ts)] := by
  unfold emailMsgs
  have : keepMsg = isOtherStringEntry := funext keepMsg_eq
  rw [this]

theorem emailMsgs_filter_email (claims : Claims) (enabled : Bool) (ts : String) :
    (emailMsgs claims enabled ts).filter isEmailEntry = [Json.str (emailMsg enabled ts)] := by
  rw [emailMsgs_eq, List.filter_append, filter_email_of_other]
  simp [List.filter, isEmailEntry_emailMsg]

theorem emailMsg_status (enabled : Bool) (ts : String) :
    jsStartsWith ⟨(emailMsg enabled ts).data.drop emailPrefix.length⟩ "activées" = enabled := by
  have hdrop : ∀ status : String,
      (emailPrefix ++ status ++ " le " ++ ts).data.drop emailPrefix.length =
        status.data ++ (" le ".data ++ ts.data) := by
    intro status
    simp only [String.data_append, List.append_assoc]
    exact List.drop_left' rfl
  unfold emailMsg jsStartsWith
  cases enabled
  · simp only [Bool.false_eq_true, if_false]
    rw [hdrop]
    rfl
  · simp only [if_true]
    rw [hdrop, List.isPrefixOf_iff_prefix]
    exact List.prefix_append _ _

theorem emailClaims_msgs (claims : Claims) (userDoc : User) (enabled : Bool) (ts : String) :
    (emailClaims claims userDoc enabled ts).get "msgs" =
      some (.arr (emailMsgs claims enabled ts)) := by
  unfold emailClaims
  rw [get_set_same]

theorem emailClaims_msg (claims : Claims) (userDoc : User) (enabled : Bool) (ts : String) :
    (emailClaims claims userDoc enabled ts).get "msg" = some (.str (emailMsg enabled ts)) := by
  unfold emailClaims
  rw [get_set_ne _ _ _ _ (by decide), get_set_same]

theorem findOneAndUpdate_some (users : List User) (uid : String) (f : User → User) (u : User)
    (h : findUser users uid = some u) : (findOneAndUpdate users uid f).2 = some (f u) := by
  induction users with
  | nil => simp [findUser] at h
  | cons a t ih =>
    unfold findOneAndUpdate
    by_cases ha : (a.uid == uid) = true
    · simp only [findUser, List.find?, ha] at h
      rw [if_pos ha]
      simp only [Option.some.injEq] at h ⊢
      rw [h]
    · have h0 : (a.uid == uid) = false := by simpa using ha
      simp only [findUser, List.find?, h0] at h
      rw [if_neg ha]
      exact ih h

theorem findOneAndUpdate_find (users : List User) (uid : String) (f : User → User) (u : User)
    (hf : ∀ x, (f x).uid = x.uid) (h : findUser users uid = some u) :
    findUser (findOneAndUpdate users uid f).1 uid = some (f u) := by
  induction users with
  | nil => simp [findUser] at h
  | cons a t ih =>
    unfold findOneAndUpdate
    by_cases ha : (a.uid == uid) = true
    · simp only [findUser, List.find?, ha] at h
      rw [if_pos ha]
      simp only [Option.some.injEq] at h
      subst h
      have : ((f a).uid == uid) = true := by rw [hf]; exact ha
      simp only [findUser, List.find?, this]
    · have h0 : (a.uid == uid) = false := by simpa using ha
      simp only [findUser, List.find?, h0] at h
      rw [if_neg ha]
      simp only [findUser, List.find?, h0]
      exact ih h

theorem setEmailNotifications_found (env : Env) (w : World) (uid : String) (body : EmailBody)
    (u : User) (hu : findUser w.users uid = some u) :
    setEmailNotifications env w uid body =
      (syncEmail env
          { w with users := (findOneAndUpdate w.users uid (fun x =>
              { x with emailNotificationsEnabled := jsTruthy body.enabled,
                       updatedAt := env.now })).1 }
          uid
          { u with emailNotificationsEnabled := jsTruthy body.enabled, updatedAt := env.now }
          (jsTruthy body.enabled),
        .ok [("success", .bool true), ("emailNotificationsEnabled", .bool (jsTruthy body.enabled)),
          ("token", .str "reload")]) := by
  unfold setEmailNotifications
  simp only
  rw [findOneAndUpdate_some w.users uid _ u hu]

theorem syncEmail_users (env : Env) (w : World) (uid : String) (userDoc : User)
    (enabled : Bool) : (syncEmail env w uid userDoc enabled).users = w.users := by
  unfold syncEmail setCustomUserClaims
  split
  · rfl
  · split <;> rfl

theorem syncEmail_claims_ok (env : Env) (w : World) (uid : String) (userDoc : User)
    (enabled : Bool) (hg : env.getUserFails = false) (hs : env.setClaimsFails = false) :
    customClaims (syncEmail env w uid userDoc enabled) uid =
      emailClaims (customClaims w uid) userDoc enabled env.now := by
  unfold syncEmail
  simp only [hg, hs, Bool.false_eq_true, if_false]
  rw [customClaims_set]
theorem setEmailNotifications_claims (env : Env) (w : World) (uid : String) (body : EmailBody)
    (u : User) (hu : findUser w.users uid = some u) (hg : env.getUserFails = false)
    (hs : env.setClaimsFails = false) :
    customClaims (setEmailNotifications env w uid body).1 uid =
      emailClaims (customClaims w uid)
        { u with emailNotificationsEnabled := jsTruthy body.enabled, updatedAt := env.now }
        (jsTruthy body.enabled) env.now := by
  rw [setEmailNotifications_found env w uid body u hu]
  simp only
  rw [syncEmail_claims_ok env _ uid _ _ hg hs]
  rfl

theorem setEmailNotifications_user (env : Env) (w : World) (uid : String) (body : EmailBody)
    (u : User) (hu : findUser w.users uid = some u) :
    findUser (setEmailNotifications env w uid body).1.users uid =
      some { u with emailNotificationsEnabled := jsTruthy body.enabled, updatedAt := env.now } := by
  rw [setEmailNotifications_found env w uid body u hu]
  simp only [syncEmail_users]
  exact findOneAndUpdate_find w.users uid _ u (fun _ => rfl) hu

theorem claimMsgs_emailClaims (claims : Claims) (userDoc : User) (enabled : Bool)
    (ts : String) : claimMsgs (emailClaims claims userDoc enabled ts) =
      emailMsgs claims enabled ts := by
  unfold claimMsgs
  rw [emailClaims_msgs]

/-! ## Claim C13: the email toggle keeps one message of its category -/

/-- C13: when the user document exists and the identity provider answers,
setEmailNotifications writes as `msgs` the non-email string entries of the
prior `msgs`, in their order, followed by the new email message; so exactly
one entry starts with `info.Notifications email `, it is the last one, it is
the field `msg`, and after the prefix it reads `activées` exactly when
`enabled` is true.  A second toggle leaves exactly one email message, that of
the second toggle. -/
theorem c13_email_toggle_dedup (env env2 : Env) (w : World) (uid : String)
    (body body2 : EmailBody) (u : User) (hu : findUser w.users uid = some u)
    (hg : env.getUserFails = false) (hs : env.setClaimsFails = false)
    (hg2 : env2.getUserFails = false) (hs2 : env2.setClaimsFails = false) :
    (customClaims (setEmailNotifications env w uid body).1 uid).get "msgs" =
        some (.arr ((claimMsgs (customClaims w uid)).filter isOtherStringEntry ++
          [Json.str (emailMsg (jsTruthy body.enabled) env.now)])) ∧
      ((claimMsgs (customClaims w uid)).filter isOtherStringEntry ++
          [Json.str (emailMsg (jsTruthy body.enabled) env.now)]).filter isEmailEntry =
        [Json.str (emailMsg (jsTruthy body.enabled) env.now)] ∧
      ((claimMsgs (customClaims w uid)).filter isOtherStringEntry ++
          [Json.str (emailMsg (jsTruthy body.enabled) env.now)]).getLast? =
        some (Json.str (emailMsg (jsTruthy body.enabled) env.now)) ∧
      (customClaims (setEmailNotifications env w uid body).1 uid).get "msg" =
        some (.str (emailMsg (jsTruthy body.enabled) env.now)) ∧
      jsStartsWith ⟨(emailMsg (jsTruthy body.enabled) env.now).data.drop emailPrefix.length⟩
        "activées" = jsTruthy body.enabled ∧
      (claimMsgs (customClaims
          (setEmailNotifications env2 (setEmailNotifications env w uid body).1 uid body2).1
          uid)).filter isEmailEntry =
        [Json.str (emailMsg (jsTruthy body2.enabled) env2.now)] := by
  refine ⟨?_, ?_, ?_, ?_, emailMsg_status _ _, ?_⟩
  · rw [setEmailNotifications_claims env w uid body u hu hg hs, emailClaims_msgs, emailMsgs_eq]
  · rw [← emailMsgs_eq]
    exact emailMsgs_filter_email _ _ _
  · rw [List.getLast?_concat]
  · rw [setEmailNotifications_claims env w uid body u hu hg hs, emailClaims_msg]
  · rw [setEmailNotifications_claims env2 _ uid body2 _
      (setEmailNotifications_user env w uid body u hu) hg2 hs2, claimMsgs_emailClaims]
    exact emailMsgs_filter_email _ _ _

/-- C13 (witness): `u1` enables the email notifications and disables them
again. -/
theorem c13_email_toggle_dedup_witness :
    (claimMsgs (customClaims
        (setEmailNotifications sampleEnv
          (setEmailNotifications sampleEnv worldFullHistory "u1" ⟨some (.bool true)⟩).1 "u1"
          ⟨some (.bool false)⟩).1
        "u1")).filter isEmailEntry =
      [Json.str (emailMsg (jsTruthy (some (.bool false))) sampleEnv.now)] :=
  (c13_email_toggle_dedup sampleEnv sampleEnv worldFullHistory "u1" ⟨some (.bool true)⟩
    ⟨some (.bool false)⟩ _ rfl rfl rfl rfl rfl).2.2.2.2.2
theorem customClaims_congr (w1 w2 : World) (uid : String) (h : w1.claims = w2.claims) :
    customClaims w1 uid = customClaims w2 uid := by
  unfold customClaims
  rw [h]

theorem siteCreatedClaims_other (claims : Claims) (userDoc : User) (n : Nat) (msg k : String)
    (hk : k ∉ ["pl", "st", "maxSites", "siteCount", "msg", "msgs"]) :
    (siteCreatedClaims claims userDoc n msg).get k = claims.get k := by
  simp only [List.mem_cons, List.mem_singleton, List.not_mem_nil, or_false, not_or] at hk
  obtain ⟨h1, h2, h3, h4, h5, h6⟩ := hk
  unfold siteCreatedClaims
  rw [get_set_ne _ _ _ _ h6, get_set_ne _ _ _ _ h5, get_set_ne _ _ _ _ h4,
    get_set_ne _ _ _ _ h3, get_set_ne _ _ _ _ h2, get_set_ne _ _ _ _ h1]

theorem emailClaims_other (claims : Claims) (userDoc : User) (enabled : Bool) (ts k : String)
    (hk : k ∉ ["emailNotificationsEnabled", "msg", "msgs"]) :
    (emailClaims claims userDoc enabled ts).get k = claims.get k := by
  simp only [List.mem_cons, List.mem_singleton, List.not_mem_nil, or_false, not_or] at hk
  obtain ⟨h1, h2, h3⟩ := hk
  unfold emailClaims
  rw [get_set_ne _ _ _ _ h3, get_set_ne _ _ _ _ h2, get_set_ne _ _ _ _ h1]

theorem initClaims_other (claims : Claims) (userDoc : User) (k : String)
    (hk : k ∉ ["pl", "st", "maxSites", "emailNotificationsEnabled"]) :
    (initClaims claims userDoc).get k = claims.get k := by
  simp only [List.mem_cons, List.mem_singleton, List.not_mem_nil, or_false, not_or] at hk
  obtain ⟨h1, h2, h3, h4⟩ := hk
  unfold initClaims
  rw [get_set_ne _ _ _ _ h4, get_set_ne _ _ _ _ h3, get_set_ne _ _ _ _ h2,
    get_set_ne _ _ _ _ h1]

theorem syncSiteCreated_other (env : Env) (w : World) (userId : String) (userDoc : User)
    (siteName : String) (site : Site) (n : Nat) (k : String)
    (hk : k ∉ ["pl", "st", "maxSites", "siteCount", "msg", "msgs"]) :
    (customClaims (syncSiteCreated env w userId userDoc siteName site n) userId).get k =
      (customClaims w userId).get k := by
  unfold syncSiteCreated
  by_cases hg : env.getUserFails = true
  · rw [if_pos hg]
  · rw [if_neg hg]
    by_cases hs : env.setClaimsFails = true
    · simp only [hs, if_true]
    · simp only [hs, Bool.false_eq_true, if_false]
      rw [customClaims_set, siteCreatedClaims_other _ _ _ _ _ hk]

theorem syncEmail_other (env : Env) (w : World) (uid : String) (userDoc : User)
    (enabled : Bool) (k : String) (hk : k ∉ ["emailNotificationsEnabled", "msg", "msgs"]) :
    (customClaims (syncEmail env w uid userDoc enabled) uid).get k =
      (customClaims w uid).get k := by
  unfold syncEmail
  by_cases hg : env.getUserFails = true
  · rw [if_pos hg]
  · rw [if_neg hg]
    by_cases hs : env.setClaimsFails = true
    · simp only [hs, if_true]
    · simp only [hs, Bool.false_eq_true, if_false]
      rw [customClaims_set, emailClaims_other _ _ _ _ _ hk]

theorem findOneAndUpdate_none (users : List User) (uid : String) (f : User → User)
    (h : findUser users uid = none) : (findOneAndUpdate users uid f).2 = none := by
  induction users with
  | nil => rfl
  | cons a t ih =>
    unfold findOneAndUpdate
    by_cases ha : (a.uid == uid) = true
    · simp [findUser, List.find?, ha] at h
    · have h0 : (a.uid == uid) = false := by simpa using ha
      simp only [findUser, List.find?, h0] at h
      rw [if_neg ha]
      exact ih h

theorem setEmailNotifications_missing (env : Env) (w : World) (uid : String)
    (body : EmailBody) (hu : findUser w.users uid = none) :
    setEmailNotifications env w uid body =
      (w, errorJson "SERVER_ERROR" "Profil utilisateur introuvable") := by
  unfold setEmailNotifications
  simp only
  rw [findOneAndUpdate_none w.users uid _ hu]

theorem setEmailNotifications_other (env : Env) (w : World) (uid : String) (body : EmailBody)
    (k : String) (hk : k ∉ ["emailNotificationsEnabled", "msg", "msgs"]) :
    (customClaims (setEmailNotifications env w uid body).1 uid).get k =
      (customClaims w uid).get k := by
  cases hu : findUser w.users uid with
  | some u =>
    rw [setEmailNotifications_found env w uid body u hu]
    simp only
    rw [syncEmail_other _ _ _ _ _ _ hk]
    rfl
  | none => rw [setEmailNotifications_missing env w uid body hu]

theorem initUserProfile_claims (env : Env) (faults : Faults) (w : World) (uid : String) :
    (initUserProfile env faults w uid).1.claims = w.claims ∨
      (env.getUserFails = false ∧ env.setClaimsFails = false ∧
        jsTruthy ((customClaims w uid).get "pl") = false ∧
        initUserProfile env faults w uid =
          (setCustomUserClaims (ensureUser env w uid) uid
              (initClaims (customClaims w uid) (resolveUser env w uid)),
            .ok [("token", .str "reload")])) := by
  have hc : customClaims (ensureUser env w uid) uid = customClaims w uid :=
    customClaims_congr _ _ _ (ensureUser_claims env w uid)
  unfold initUserProfile
  simp only [hc]
  by_cases hg : env.getUserFails = true
  · left
    rw [if_pos hg]
    exact ensureUser_claims env w uid
  · rw [if_neg hg]
    by_cases hp : jsTruthy ((customClaims w uid).get "pl") = true
    · left
      simp only [hp, Bool.not_true, Bool.false_eq_true, if_false]
      exact ensureUser_claims env w uid
    · simp only [hp, Bool.not_false, if_true]
      by_cases hs : env.setClaimsFails = true
      · left
        simp only [hs, if_true]
        exact ensureUser_claims env w uid
      · right
        simp only [hs, Bool.false_eq_true, if_false]
        exact ⟨by simpa using hg, by simp [hs], by simp [hp], trivial⟩

theorem initUserProfile_other (env : Env) (faults : Faults) (w : World) (uid k : String)
    (hk : k ∉ ["pl", "st", "maxSites", "emailNotificationsEnabled"]) :
    (customClaims (initUserProfile env faults w uid).1 uid).get k =
      (customClaims w uid).get k := by
  rcases initUserProfile_claims env faults w uid with h | ⟨-, -, -, h⟩
  · rw [customClaims_congr _ _ _ h]
  · rw [h]
    simp only
    rw [customClaims_set, initClaims_other _ _ _ hk]
theorem set_of_fixed (c : Claims) (k : String) (v : Json)
    (hany : c.any (fun kv => kv.1 == k) = true) (hall : ∀ e ∈ c, e.1 = k → e = (k, v)) :
    c.set k v = c := by
  unfold Claims.set
  rw [if_pos hany]
  conv_rhs => rw [← List.map_id c]
  apply List.map_congr_left
  intro e he
  by_cases hk : e.1 = k
  · simp [hk, hall e he hk]
  · simp [hk]

theorem set_any (c : Claims) (k : String) (v : Json) :
    (c.set k v).any (fun kv => kv.1 == k) = true := by
  have h := get_set_same c k v
  unfold Claims.get at h
  cases hf : (c.set k v).find? (fun kv => kv.1 == k) with
  | none => rw [hf] at h; simp at h
  | some x =>
    rw [List.any_eq_true]
    exact ⟨x, List.mem_of_find?_eq_some hf, @List.find?_some _ (fun kv : String × Json => kv.1 == k) _ _ hf⟩

theorem set_all (c : Claims) (k : String) (v : Json) :
    ∀ e ∈ c.set k v, e.1 = k → e = (k, v) := by
  intro e he hk
  unfold Claims.set at he
  by_cases hany : c.any (fun kv => kv.1 == k) = true
  · rw [if_pos hany] at he
    obtain ⟨x, hx, rfl⟩ := List.mem_map.1 he
    by_cases hxk : x.1 = k
    · simp [hxk]
    · simp only [beq_iff_eq, hxk, if_false] at hk
  · rw [if_neg hany] at he
    rcases List.mem_append.1 he with he | he
    · exact absurd (List.any_eq_true.2 ⟨e, he, by simpa using hk⟩) hany
    · simpa using he

theorem set_any_ne (c : Claims) (k k2 : String) (v2 : Json)
    (h : c.any (fun kv => kv.1 == k) = true) :
    (c.set k2 v2).any (fun kv => kv.1 == k) = true := by
  rw [List.any_eq_true] at h ⊢
  obtain ⟨x, hx, hxk⟩ := h
  unfold Claims.set
  by_cases hany : c.any (fun kv => kv.1 == k2) = true
  · rw [if_pos hany]
    by_cases hx2 : x.1 = k2
    · refine ⟨(k2, v2), List.mem_map.2 ⟨x, hx, by simp [hx2]⟩, ?_⟩
      rw [← hx2]
      exact hxk
    · exact ⟨x, List.mem_map.2 ⟨x, hx, by simp [hx2]⟩, hxk⟩
  · rw [if_neg hany]
    exact ⟨x, List.mem_append_left _ hx, hxk⟩

theorem set_all_ne (c : Claims) (k k2 : String) (v v2 : Json) (hne : k ≠ k2)
    (h : ∀ e ∈ c, e.1 = k → e = (k, v)) : ∀ e ∈ c.set k2 v2, e.1 = k → e = (k, v) := by
  intro e he hk
  unfold Claims.set at he
  by_cases hany : c.any (fun kv => kv.1 == k2) = true
  · rw [if_pos hany] at he
    obtain ⟨x, hx, rfl⟩ := List.mem_map.1 he
    by_cases hx2 : x.1 = k2
    · simp only [hx2, beq_self_eq_true, if_true] at hk
      exact absurd hk.symm hne
    · simp only [beq_iff_eq, hx2, if_false] at hk ⊢
      exact h x hx hk
  · rw [if_neg hany] at he
    rcases List.mem_append.1 he with he | he
    · exact h e he hk
    · simp only [List.mem_singleton] at he
      rw [he] at hk
      exact absurd hk.symm hne

theorem initClaims_idem (c : Claims) (u : User) : initClaims (initClaims c u) u = initClaims c u := by
  have e : initClaims c u = (((c.set "pl" (.str u.pl)).set "st" (.str "active")).set "maxSites"
      (.num u.maxSites)).set "emailNotificationsEnabled" (.bool u.emailNotificationsEnabled) :=
    rfl
  have a1 : (initClaims c u).any (fun kv => kv.1 == "pl") = true := by
    rw [e]
    exact set_any_ne _ _ _ _ (set_any_ne _ _ _ _ (set_any_ne _ _ _ _ (set_any _ _ _)))
  have f1 : ∀ x ∈ initClaims c u, x.1 = "pl" → x = ("pl", .str u.pl) := by
    rw [e]
    exact set_all_ne _ _ _ _ _ (by decide) (set_all_ne _ _ _ _ _ (by decide)
      (set_all_ne _ _ _ _ _ (by decide) (set_all _ _ _)))
  have a2 : (initClaims c u).any (fun kv => kv.1 == "st") = true := by
    rw [e]
    exact set_any_ne _ _ _ _ (set_any_ne _ _ _ _ (set_any _ _ _))
  have f2 : ∀ x ∈ initClaims c u, x.1 = "st" → x = ("st", .str "active") := by
    rw [e]
    exact set_all_ne _ _ _ _ _ (by decide) (set_all_ne _ _ _ _ _ (by decide) (set_all _ _ _))
  have a3 : (initClaims c u).any (fun kv => kv.1 == "maxSites") = true := by
    rw [e]
    exact set_any_ne _ _ _ _ (set_any _ _ _)
  have f3 : ∀ x ∈ initClaims c u, x.1 = "maxSites" → x = ("maxSites", .num u.maxSites) := by
    rw [e]
    exact set_all_ne _ _ _ _ _ (by decide) (set_all _ _ _)
  have a4 : (initClaims c u).any (fun kv => kv.1 == "emailNotificationsEnabled") = true := by
    rw [e]
    exact set_any _ _ _
  have f4 : ∀ x ∈ initClaims c u, x.1 = "emailNotificationsEnabled" →
      x = ("emailNotificationsEnabled", .bool u.emailNotificationsEnabled) := by
    rw [e]
    exact set_all _ _ _
  generalize initClaims c u = d at a1 f1 a2 f2 a3 f3 a4 f4
  unfold initClaims
  rw [set_of_fixed d _ _ a1 f1, set_of_fixed d _ _ a2 f2, set_of_fixed d _ _ a3 f3,
    set_of_fixed d _ _ a4 f4]

theorem findUser_ensureUser (env : Env) (w : World) (uid : String) :
    findUser (ensureUser env w uid).users uid = some (resolveUser env w uid) := by
  unfold ensureUser resolveUser
  cases h : findUser w.users uid with
  | some u => exact h
  | none =>
    simp only
    unfold findUser at h ⊢
    rw [List.find?_append, h]
    simp [List.find?, defaultUser]

theorem resolveUser_of_found (env : Env) (w : World) (uid : String) (u : User)
    (h : findUser w.users uid = some u) :
    resolveUser env w uid = u ∧ ensureUser env w uid = w := by
  unfold resolveUser ensureUser
  rw [h]
  exact ⟨rfl, rfl⟩

theorem initUserProfile_cases (env : Env) (faults : Faults) (w : World) (uid : String) :
    (∃ r, initUserProfile env faults w uid = (ensureUser env w uid, r) ∧
      ((env.getUserFails = false ∧ jsTruthy ((customClaims w uid).get "pl") = true ∧
          r = .ok [("token", .str "reload")]) ∨
        ((env.getUserFails = true ∨ env.setClaimsFails = true) ∧
          r = errorJson "SERVER_ERROR" faults.errorMessage))) ∨
      (env.getUserFails = false ∧ env.setClaimsFails = false ∧
        jsTruthy ((customClaims w uid).get "pl") = false ∧
        initUserProfile env faults w uid =
          (setCustomUserClaims (ensureUser env w uid) uid
              (initClaims (customClaims w uid) (resolveUser env w uid)),
            .ok [("token", .str "reload")])) := by
  have hc : customClaims (ensureUser env w uid) uid = customClaims w uid :=
    customClaims_congr _ _ _ (ensureUser_claims env w uid)
  unfold initUserProfile
  simp only [hc]
  by_cases hg : env.getUserFails = true
  · left
    rw [if_pos hg]
    exact ⟨_, rfl, Or.inr ⟨Or.inl hg, rfl⟩⟩
  · rw [if_neg hg]
    by_cases hp : jsTruthy ((customClaims w uid).get "pl") = true
    · left
      simp only [hp, Bool.not_true, Bool.false_eq_true, if_false]
      exact ⟨_, rfl, Or.inl ⟨by simpa using hg, trivial, rfl⟩⟩
    · simp only [hp, Bool.not_false, if_true]
      by_cases hs : env.setClaimsFails = true
      · left
        simp only [hs, if_true]
        exact ⟨_, rfl, Or.inr ⟨Or.inr trivial, rfl⟩⟩
      · right
        simp only [hs, Bool.false_eq_true, if_false]
        exact ⟨by simpa using hg, by simp [hs], by simp [hp], trivial⟩
/-! ## Claim C15: initUserProfile and the claims snapshot -/

/-- C15 (counterexample): the claims of `u1` hold `maxSites = 5` and
`st = 'suspended'` but no plan; initUserProfile overwrites both, with the
quota 2 of the user document and with `'active'`. -/
theorem c15_quota_and_status_overwritten :
    (customClaims worldNoPlan "u1").get "pl" = none ∧
      (customClaims worldNoPlan "u1").get "maxSites" = some (.num 5) ∧
      (customClaims worldNoPlan "u1").get "st" = some (.str "suspended") ∧
      (customClaims (initUserProfile sampleEnv noFaults worldNoPlan "u1").1 "u1").get "maxSites" =
        some (.num 2) ∧
      (customClaims (initUserProfile sampleEnv noFaults worldNoPlan "u1").1 "u1").get "st" =
        some (.str "active") ∧
      Json.num 2 ≠ Json.num 5 ∧ Json.str "active" ≠ Json.str "suspended" := by
  refine ⟨rfl, rfl, rfl, rfl, rfl, by simp, by simp⟩

/-- C15 (amended): with an identity provider that answers, initUserProfile
answers `token = 'reload'`; when the claims have no plan (`pl` absent or
falsy) it writes the snapshot with `pl`, `st = 'active'`, `maxSites` and
`emailNotificationsEnabled` set from the user document, `msg` and `msgs` left
as they were; when the claims have a plan it writes nothing, so an existing
plan, and the quota and status next to it, are not overwritten; and a second
run, whatever its environment, leaves the claims of the first. -/
theorem c15_initUserProfile_idempotent (env env2 : Env) (faults faults2 : Faults) (w : World)
    (uid : String) (hg : env.getUserFails = false) (hs : env.setClaimsFails = false) :
    (initUserProfile env faults w uid).2 = .ok [("token", .str "reload")] ∧
      (jsTruthy ((customClaims w uid).get "pl") = false →
        customClaims (initUserProfile env faults w uid).1 uid =
            initClaims (customClaims w uid) (resolveUser env w uid) ∧
          (customClaims (initUserProfile env faults w uid).1 uid).get "pl" =
            some (.str (resolveUser env w uid).pl) ∧
          (customClaims (initUserProfile env faults w uid).1 uid).get "st" =
            some (.str "active") ∧
          (customClaims (initUserProfile env faults w uid).1 uid).get "maxSites" =
            some (.num (resolveUser env w uid).maxSites) ∧
          (customClaims (initUserProfile env faults w uid).1 uid).get
              "emailNotificationsEnabled" =
            some (.bool (resolveUser env w uid).emailNotificationsEnabled) ∧
          (customClaims (initUserProfile env faults w uid).1 uid).get "msg" =
            (customClaims w uid).get "msg" ∧
          (customClaims (initUserProfile env faults w uid).1 uid).get "msgs" =
            (customClaims w uid).get "msgs") ∧
      (jsTruthy ((customClaims w uid).get "pl") = true →
        (initUserProfile env faults w uid).1.claims = w.claims) ∧
      customClaims
          (initUserProfile env2 faults2 (initUserProfile env faults w uid).1 uid).1 uid =
        customClaims (initUserProfile env faults w uid).1 uid := by
  rcases initUserProfile_cases env faults w uid with
    ⟨r, hr, ⟨-, hp, rfl⟩ | ⟨hf, -⟩⟩ | ⟨-, -, hp, hr⟩
  · refine ⟨by rw [hr], ?_, ?_, ?_⟩
    · intro hn
      rw [hp] at hn
      exact absurd hn (by decide)
    · intro _
      rw [hr]
      exact ensureUser_claims env w uid
    · rw [hr]
      simp only
      have hc : customClaims (ensureUser env w uid) uid = customClaims w uid :=
        customClaims_congr _ _ _ (ensureUser_claims env w uid)
      rcases initUserProfile_cases env2 faults2 (ensureUser env w uid) uid with
        ⟨r2, hr2, -⟩ | ⟨-, -, hp2, -⟩
      · rw [hr2]
        exact customClaims_congr _ _ _ (ensureUser_claims env2 _ uid)
      · rw [hc, hp] at hp2
        exact absurd hp2 (by decide)
  · rcases hf with hf | hf
    · rw [hg] at hf
      exact absurd hf (by decide)
    · rw [hs] at hf
      exact absurd hf (by decide)
  · have hcw : customClaims (initUserProfile env faults w uid).1 uid =
        initClaims (customClaims w uid) (resolveUser env w uid) := by
      rw [hr]
      exact customClaims_set _ _ _
    refine ⟨by rw [hr], ?_, ?_, ?_⟩
    · intro _
      refine ⟨hcw, ?_, ?_, ?_, ?_, ?_, ?_⟩
      · rw [hcw]
        unfold initClaims
        rw [get_set_ne _ _ _ _ (by decide), get_set_ne _ _ _ _ (by decide),
          get_set_ne _ _ _ _ (by decide), get_set_same]
      · rw [hcw]
        unfold initClaims
        rw [get_set_ne _ _ _ _ (by decide), get_set_ne _ _ _ _ (by decide), get_set_same]
      · rw [hcw]
        unfold initClaims
        rw [get_set_ne _ _ _ _ (by decide), get_set_same]
      · rw [hcw]
        unfold initClaims
        rw [get_set_same]
      · rw [hcw]
        exact initClaims_other _ _ _ (by decide)
      · rw [hcw]
        exact initClaims_other _ _ _ (by decide)
    · intro ht
      rw [hp] at ht
      exact absurd ht (by decide)
    · have hu1 : findUser (initUserProfile env faults w uid).1.users uid =
          some (resolveUser env w uid) := by
        rw [hr]
        exact findUser_ensureUser env w uid
      obtain ⟨hru, heu⟩ := resolveUser_of_found env2 _ uid _ hu1
      rcases initUserProfile_cases env2 faults2 (initUserProfile env faults w uid).1 uid with
        ⟨r2, hr2, -⟩ | ⟨-, -, -, hr2⟩
      · rw [hr2]
        exact customClaims_congr _ _ _ (ensureUser_claims env2 _ uid)
      · rw [hr2]
        simp only
        rw [customClaims_set, hru, hcw, initClaims_idem]

/-- C15 (witness): the first call for `u1`, whose claims have no plan, and a
second call while the identity provider does not answer. -/
theorem c15_initUserProfile_idempotent_witness :
    (initUserProfile sampleEnv noFaults worldNoPlan "u1").2 = .ok [("token", .str "reload")] ∧
      customClaims
          (initUserProfile failingEnv deleteFails
            (initUserProfile sampleEnv noFaults worldNoPlan "u1").1 "u1").1 "u1" =
        customClaims (initUserProfile sampleEnv noFaults worldNoPlan "u1").1 "u1" :=
  ⟨(c15_initUserProfile_idempotent sampleEnv failingEnv noFaults deleteFails worldNoPlan "u1"
      rfl rfl).1,
    (c15_initUserProfile_idempotent sampleEnv failingEnv noFaults deleteFails worldNoPlan "u1"
      rfl rfl).2.2.2⟩
/-! ## Claim C17: deleteAccount -/

theorem findUser_eraseP (users : List User) (uid : String) (h : UniqueUid users uid) :
    findUser (users.eraseP (fun u => u.uid == uid)) uid = none := by
  induction users with
  | nil => rfl
  | cons a t ih =>
    unfold UniqueUid at h
    by_cases ha : (a.uid == uid) = true
    · rw [List.eraseP_cons]
      simp only [ha, cond_true]
      rw [List.filter_cons] at h
      simp only [ha, if_true, List.length_cons] at h
      have ht : t.filter (fun u => u.uid == uid) = [] :=
        List.length_eq_zero.1 (by omega)
      unfold findUser
      rw [List.find?_eq_none]
      intro x hx hxu
      have : x ∈ t.filter (fun u => u.uid == uid) := List.mem_filter.2 ⟨hx, hxu⟩
      rw [ht] at this
      simp at this
    · have h0 : (a.uid == uid) = false := by simpa using ha
      rw [List.eraseP_cons]
      simp only [h0, cond_false]
      rw [List.filter_cons] at h
      simp only [h0, Bool.false_eq_true, if_false] at h
      simp only [findUser, List.find?, h0]
      exact ih h

theorem countSites_filter (sites : List Site) (uid : String) :
    countSites (sites.filter (fun s => !(s.userId == uid))) uid = 0 := by
  unfold countSites
  rw [List.length_eq_zero, List.filter_filter, List.filter_eq_nil_iff]
  intro s _
  simp

/-- C17: in a store that respects the unique index on `uid`, after
deleteAccount the store holds no Site of the identity and no User document
for it, also when the deletion at the identity provider fails, in which case
the answer is SERVER_ERROR; otherwise the answer is the success flag.  A
failure of the push-topic unsubscribe changes neither the state left nor the
answer. -/
theorem c17_deleteAccount_postcondition (faults : Faults) (w : World) (uid : String)
    (huniq : UniqueUid w.users uid) :
    countSites (deleteAccount faults w uid).world.sites uid = 0 ∧
      (∀ s ∈ (deleteAccount faults w uid).world.sites, s.userId ≠ uid) ∧
      findUser (deleteAccount faults w uid).world.users uid = none ∧
      (faults.deleteUserFails = true →
        (deleteAccount faults w uid).response = errorJson "SERVER_ERROR" faults.errorMessage) ∧
      (faults.deleteUserFails = false →
        (deleteAccount faults w uid).response = .ok [("success", .bool true)]) ∧
      ∀ b : Bool,
        (deleteAccount { faults with unsubscribeFails := b } w uid).world =
            (deleteAccount faults w uid).world ∧
          (deleteAccount { faults with unsubscribeFails := b } w uid).response =
            (deleteAccount faults w uid).response := by
  have hsites : (deleteAccount faults w uid).world.sites =
      w.sites.filter (fun s => !(s.userId == uid)) := by
    unfold deleteAccount
    cases faults.deleteUserFails <;> rfl
  have husers : (deleteAccount faults w uid).world.users =
      w.users.eraseP (fun u => u.uid == uid) := by
    unfold deleteAccount
    cases faults.deleteUserFails <;> rfl
  refine ⟨?_, ?_, ?_, ?_, ?_, ?_⟩
  · rw [hsites]
    exact countSites_filter w.sites uid
  · rw [hsites]
    intro s hs
    have := (List.mem_filter.1 hs).2
    simpa using this
  · rw [husers]
    exact findUser_eraseP w.users uid huniq
  · intro hf
    unfold deleteAccount
    simp only [hf, if_true]
  · intro hf
    unfold deleteAccount
    simp only [hf, Bool.false_eq_true, if_false]
  · intro b
    unfold deleteAccount
    cases faults.deleteUserFails <;> exact ⟨rfl, rfl⟩

/-- C17 (witness): the account of `u1`, with a push token whose unsubscribe
fails and an identity the provider fails to delete. -/
theorem c17_deleteAccount_postcondition_witness :
    UniqueUid worldFullHistory.users "u1" ∧
      countSites (deleteAccount deleteFails worldFullHistory "u1").world.sites "u1" = 0 ∧
      findUser (deleteAccount deleteFails worldFullHistory "u1").world.users "u1" = none ∧
      (deleteAccount deleteFails worldFullHistory "u1").response =
        errorJson "SERVER_ERROR" deleteFails.errorMessage :=
  ⟨by unfold UniqueUid; decide,
    (c17_deleteAccount_postcondition deleteFails worldFullHistory "u1"
      (by unfold UniqueUid; decide)).1,
    (c17_deleteAccount_postcondition deleteFails worldFullHistory "u1"
      (by unfold UniqueUid; decide)).2.2.1,
    (c17_deleteAccount_postcondition deleteFails worldFullHistory "u1"
      (by unfold UniqueUid; decide)).2.2.2.1 rfl⟩
/-! ## Claim C14: the fields of other owners -/

theorem syncSiteCreated_fail (env : Env) (w : World) (userId : String) (userDoc : User)
    (siteName : String) (site : Site) (n : Nat)
    (h : env.getUserFails = true ∨ env.setClaimsFails = true) :
    syncSiteCreated env w userId userDoc siteName site n = w := by
  unfold syncSiteCreated
  rcases h with h | h
  · rw [if_pos h]
  · by_cases hg : env.getUserFails = true
    · rw [if_pos hg]
    · rw [if_neg hg]
      simp only [h, if_true]

theorem syncEmail_fail (env : Env) (w : World) (uid : String) (userDoc : User)
    (enabled : Bool) (h : env.getUserFails = true ∨ env.setClaimsFails = true) :
    syncEmail env w uid userDoc enabled = w := by
  unfold syncEmail
  rcases h with h | h
  · rw [if_pos h]
  · by_cases hg : env.getUserFails = true
    · rw [if_pos hg]
    · rw [if_neg hg]
      simp only [h, if_true]

theorem createSite_other (env : Env) (w : World) (userId : String) (body : CreateSiteBody)
    (k : String) (hk : k ∉ ["pl", "st", "maxSites", "siteCount", "msg", "msgs"]) :
    (customClaims (createSite env w userId body).1 userId).get k =
      (customClaims w userId).get k := by
  rcases createSite_result env w userId body with
    ⟨r, c, hr, -⟩ | ⟨_, _, _, _, _, _, _, _, _, _, _, _, hr⟩
  · rw [hr]
    rw [customClaims_congr _ _ _ (ensureUser_claims env w userId)]
  · rw [hr]
    simp only
    rw [syncSiteCreated_other _ _ _ _ _ _ _ _ hk]
    exact congrArg (fun c => Claims.get c k)
      (customClaims_congr _ _ _ (ensureUser_claims env w userId))

/-- C14: the claims the handlers write keep every field the system does not
own: a key other than `pl`, `st`, `maxSites`, `siteCount`, `msg`, `msgs`
keeps its value in the claims of the site-creation sync and after createSite;
a key other than `emailNotificationsEnabled`, `msg`, `msgs` keeps its value
in the claims of the email toggle and after setEmailNotifications; a key other
than `pl`, `st`, `maxSites`, `emailNotificationsEnabled` keeps its value in
the claims of initUserProfile and after it. -/
theorem c14_claims_merge_preserves (k : String) (claims : Claims) (userDoc : User) :
    (k ∉ ["pl", "st", "maxSites", "siteCount", "msg", "msgs"] →
      (∀ (newSiteCount : Nat) (msg : String),
        (siteCreatedClaims claims userDoc newSiteCount msg).get k = claims.get k) ∧
      ∀ (env : Env) (w : World) (userId : String) (body : CreateSiteBody),
        (customClaims (createSite env w userId body).1 userId).get k =
          (customClaims w userId).get k) ∧
    (k ∉ ["emailNotificationsEnabled", "msg", "msgs"] →
      (∀ (enabled : Bool) (timestamp : String),
        (emailClaims claims userDoc enabled timestamp).get k = claims.get k) ∧
      ∀ (env : Env) (w : World) (uid : String) (body : EmailBody),
        (customClaims (setEmailNotifications env w uid body).1 uid).get k =
          (customClaims w uid).get k) ∧
    (k ∉ ["pl", "st", "maxSites", "emailNotificationsEnabled"] →
      (initClaims claims userDoc).get k = claims.get k ∧
      ∀ (env : Env) (faults : Faults) (w : World) (uid : String),
        (customClaims (initUserProfile env faults w uid).1 uid).get k =
          (customClaims w uid).get k) := by
  refine ⟨fun hk => ⟨fun n msg => siteCreatedClaims_other _ _ _ _ _ hk,
      fun env w userId body => createSite_other env w userId body k hk⟩,
    fun hk => ⟨fun enabled ts => emailClaims_other _ _ _ _ _ hk,
      fun env w uid body => setEmailNotifications_other env w uid body k hk⟩,
    fun hk => ⟨initClaims_other _ _ _ hk,
      fun env faults w uid => initUserProfile_other env faults w uid k hk⟩⟩

/-- C14 (witness): the field `theme` of the claims of `u1` after an email
toggle, a site creation and an initUserProfile. -/
theorem c14_claims_merge_preserves_witness :
    (customClaims
        (setEmailNotifications sampleEnv worldFullHistory "u1" ⟨some (.bool true)⟩).1 "u1").get
        "theme" = (customClaims worldFullHistory "u1").get "theme" ∧
      (customClaims
        (createSite sampleEnv worldFullHistory "u1"
          ⟨some "Blog", some ["blog.example.com"], some "landing"⟩).1 "u1").get "theme" =
        (customClaims worldFullHistory "u1").get "theme" ∧
      (customClaims (initUserProfile sampleEnv noFaults worldFullHistory "u1").1 "u1").get
        "theme" = (customClaims worldFullHistory "u1").get "theme" :=
  ⟨((c14_claims_merge_preserves "theme" [] sampleUser).2.1 (by decide)).2 sampleEnv
      worldFullHistory "u1" ⟨some (.bool true)⟩,
    ((c14_claims_merge_preserves "theme" [] sampleUser).1 (by decide)).2 sampleEnv
      worldFullHistory "u1" ⟨some "Blog", some ["blog.example.com"], some "landing"⟩,
    ((c14_claims_merge_preserves "theme" [] sampleUser).2.2 (by decide)).2 sampleEnv noFaults
      worldFullHistory "u1"⟩

/-! ## The handler on a body with raw domains -/

theorem jsonStrings_map_str (ds : List String) : jsonStrings (ds.map Json.str) = some ds := by
  induction ds with
  | nil => rfl
  | cons d t ih => simp [jsonStrings, ih]

theorem formatRawDomains_strings (env : Env) (ds : List String) :
    formatRawDomains env (.arr (ds.map Json.str)) = some (formatDomains env ds) := by
  simp [formatRawDomains, jsonStrings_map_str]

theorem createSiteRaw_strings (env : Env) (faults : Faults) (w : World) (userId : String)
    (siteName siteType : Option String) (domains : Option (List String)) :
    createSiteRaw env faults w userId
        ⟨siteName, domains.map (fun ds => Json.arr (ds.map Json.str)), siteType⟩ =
      createSite env w userId ⟨siteName, domains, siteType⟩ := by
  unfold createSiteRaw createSite
  cases domains with
  | none => simp [jsTruthy]
  | some ds =>
    have h : (some (Json.arr (ds.map Json.str))).bind (formatRawDomains env) =
        some (formatDomains env ds) := formatRawDomains_strings env ds
    simp only [Option.map_some', jsTruthy, Json.truthy, Option.isNone_some, Option.getD_some, h,
      Bool.not_true]

theorem createSiteRaw_throws (env : Env) (faults : Faults) (w : World)
    (userId siteName siteType : String) (domains : Json)
    (hname : siteName ≠ "") (hlen : jsLength siteName ≤ 15) (htype : siteType ∈ siteTypes)
    (hquota : (countSites w.sites userId : Int) < (resolveUser env w userId).maxSites)
    (htruthy : domains.truthy = true) (hthrow : formatRawDomains env domains = none) :
    createSiteRaw env faults w userId ⟨some siteName, some domains, some siteType⟩ =
      (ensureUser env w userId, errorJson "SERVER_ERROR" faults.errorMessage) := by
  unfold createSiteRaw
  have h1 : (!truthy (some siteName) || !jsTruthy (some domains) || !truthy (some siteType)) =
      false := by
    simp [truthy_some _ hname, truthy_some _ (siteType_ne_empty _ htype), jsTruthy, htruthy]
  have h2 : ¬ (jsLength siteName > 15) := by omega
  have h3 : ¬ ((!siteTypes.contains siteType) = true) := by
    rw [not_contains_siteTypes]
    exact not_not.2 htype
  have h4 : ¬ ((countSites (ensureUser env w userId).sites userId : Int) ≥
      (resolveUser env w userId).maxSites) := by
    rw [ensureUser_sites]
    omega
  have h5 : (some domains).bind (formatRawDomains env) = none := hthrow
  simp only [h1, Bool.false_eq_true, if_false, Option.getD_some, h2, h3, h4, h5]

theorem createSite_first_invalid_domain (env : Env) (w : World)
    (userId siteName siteType : String) (pre post : List String) (bad : String)
    (hname : siteName ≠ "") (hlen : jsLength siteName ≤ 15) (htype : siteType ∈ siteTypes)
    (hquota : (countSites w.sites userId : Int) < (resolveUser env w userId).maxSites)
    (hpre : ∀ d ∈ pre, isValidDomain (normalizeDomain env d) = true ∧
      findLockedDomain w.sites (normalizeDomain env d) = none)
    (hbad : isValidDomain (normalizeDomain env bad) = false) :
    createSite env w userId ⟨some siteName, some (pre ++ bad :: post), some siteType⟩ =
      (ensureUser env w userId,
        errorJson "INVALID_DOMAIN" ("Domaine invalide: " ++ normalizeDomain env bad)) := by
  rw [createSite_present env w userId _ (truthy_some _ hname) (by simp)
    (truthy_some _ (siteType_ne_empty _ htype))]
  simp only [Option.getD_some]
  rw [if_neg (by omega), if_neg (by rw [not_contains_siteTypes]; exact not_not.2 htype),
    if_neg (by omega)]
  have hfd : formatDomains env (pre ++ bad :: post) =
      formatDomains env pre ++
        ({ value := normalizeDomain env bad, locked := false } : Domain) ::
          formatDomains env post := by
    simp [formatDomains]
  rw [hfd, checkDomains_first_invalid w.sites _ _ _ _ hbad]
  intro d hd
  obtain ⟨x, hx, rfl⟩ := List.mem_map.1 hd
  exact hpre x hx

/-! ## Claim C10: domain validation and the uniqueness check -/

/-- C10 (counterexample): both requests pass the field, length, type and quota
checks and hold the domain `bad/domain`, which fails isValidDomain.  The first
is answered DOMAIN_ALREADY_EXISTS: its first domain `taken.com` is valid and
held locked by another site, and the loop checks uniqueness of a domain before
it validates the next one.  The second is answered SERVER_ERROR: its second
element is the number 5, and `domains.map` trims every element before the
loop starts. -/
theorem c10_locked_domain_answered_first :
    "Shop" ≠ "" ∧ jsLength "Shop" ≤ 15 ∧ "vitrine" ∈ siteTypes ∧
      (countSites worldLocked.sites "u1" : Int) < (resolveUser sampleEnv worldLocked "u1").maxSites ∧
      isValidDomain (normalizeDomain sampleEnv "bad/domain") = false ∧
      (createSiteRaw sampleEnv typeErrorFaults worldLocked "u1"
        ⟨some "Shop", some (.arr [.str "taken.com", .str "bad/domain"]), some "vitrine"⟩).2.code =
        some "DOMAIN_ALREADY_EXISTS" ∧
      (createSiteRaw sampleEnv typeErrorFaults worldLocked "u1"
        ⟨some "Shop", some (.arr [.str "bad/domain", .num 5]), some "vitrine"⟩).2.code =
        some "SERVER_ERROR" := by
  refine ⟨by decide, by decide, by decide, by decide, by decide, by decide, by decide⟩

/-- C10 (amended): for every request that passes the field, length, type and
quota checks and whose `domains` is an array of strings, if a domain fails
isValidDomain after trim and lower-casing and every domain before it is valid
and not held by a site with a locked domain, createSite answers
INVALID_DOMAIN and its details name that normalised value; the store keeps its
sites. -/
theorem c10_createSiteRaw_first_invalid_domain (env : Env) (faults : Faults) (w : World)
    (userId siteName siteType : String) (pre post : List String) (bad : String)
    (hname : siteName ≠ "") (hlen : jsLength siteName ≤ 15) (htype : siteType ∈ siteTypes)
    (hquota : (countSites w.sites userId : Int) < (resolveUser env w userId).maxSites)
    (hpre : ∀ d ∈ pre, isValidDomain (normalizeDomain env d) = true ∧
      findLockedDomain w.sites (normalizeDomain env d) = none)
    (hbad : isValidDomain (normalizeDomain env bad) = false) :
    createSiteRaw env faults w userId
        ⟨some siteName, some (.arr ((pre ++ bad :: post).map Json.str)), some siteType⟩ =
      (ensureUser env w userId,
        errorJson "INVALID_DOMAIN" ("Domaine invalide: " ++ normalizeDomain env bad)) := by
  have h := createSiteRaw_strings env faults w userId (some siteName) (some siteType)
    (some (pre ++ bad :: post))
  simp only [Option.map_some'] at h
  rw [h]
  exact createSite_first_invalid_domain env w userId siteName siteType pre post bad hname hlen
    htype hquota hpre hbad

/-- C10 (witness): the invalid `bad/domain` comes after the free
`shop.example.com` and before the locked `taken.com`. -/
theorem c10_createSiteRaw_first_invalid_domain_witness :
    createSiteRaw sampleEnv typeErrorFaults worldLocked "u1"
        ⟨some "Shop",
          some (.arr ((["shop.example.com"] ++ "bad/domain" :: ["taken.com"]).map Json.str)),
          some "vitrine"⟩ =
      (ensureUser sampleEnv worldLocked "u1",
        errorJson "INVALID_DOMAIN" ("Domaine invalide: " ++ normalizeDomain sampleEnv "bad/domain")) :=
  c10_createSiteRaw_first_invalid_domain sampleEnv typeErrorFaults worldLocked "u1" "Shop"
    "vitrine" ["shop.example.com"] ["taken.com"] "bad/domain" (by decide) (by decide)
    (by decide) (by decide) (by decide) (by decide)

/-! ## Claim C16: the synchronisation of the claims is best-effort -/

theorem saveSite_ok (sites sites2 : List Site) (doc : Site)
    (h : saveSite sites doc = .ok sites2) : sites2 = sites ++ [doc] := by
  unfold saveSite at h
  by_cases hv : validateSite doc ≠ []
  · rw [if_pos hv] at h
    cases h
  · rw [if_neg hv] at h
    cases hp : preSave doc with
    | some m =>
      rw [hp] at h
      cases h
    | none =>
      rw [hp] at h
      by_cases hd : duplicateKey sites doc = true
      · simp only [hd, if_true] at h
        cases h
      · simp only [hd, Bool.false_eq_true, if_false] at h
        cases h
        rfl

theorem saveAndRespond_saved (env : Env) (w : World) (userId : String) (userDoc : User)
    (siteName : String) (fd : List Domain) (siteType : String) (sites2 : List Site)
    (h : saveSite w.sites (newSite env userId siteName fd siteType env.randomUUID) =
      .ok sites2) :
    saveAndRespond env w userId userDoc siteName fd siteType =
      (syncSiteCreated env { w with sites := sites2 } userId userDoc siteName
          (newSite env userId siteName fd siteType env.randomUUID) (countSites sites2 userId),
        .ok [("data", .str env.randomUUID), ("token", .str "reload")]) := by
  unfold saveAndRespond
  simp only [h]

theorem saveAndRespond_answering (env : Env) (w : World) (userId : String) (userDoc : User)
    (siteName : String) (fd : List Domain) (siteType : String) :
    (saveAndRespond env w userId userDoc siteName fd siteType).2 =
        (saveAndRespond (answering env) w userId userDoc siteName fd siteType).2 ∧
      (saveAndRespond env w userId userDoc siteName fd siteType).1.sites =
        (saveAndRespond (answering env) w userId userDoc siteName fd siteType).1.sites ∧
      (saveAndRespond env w userId userDoc siteName fd siteType).1.users =
        (saveAndRespond (answering env) w userId userDoc siteName fd siteType).1.users := by
  have hnew : newSite (answering env) userId siteName fd siteType (answering env).randomUUID =
      newSite env userId siteName fd siteType env.randomUUID := rfl
  cases hs : saveSite w.sites (newSite env userId siteName fd siteType env.randomUUID) with
  | ok sites2 =>
    have hs2 : saveSite w.sites
        (newSite (answering env) userId siteName fd siteType (answering env).randomUUID) =
          .ok sites2 := by rw [hnew]; exact hs
    rw [saveAndRespond_saved env w userId userDoc siteName fd siteType sites2 hs,
      saveAndRespond_saved (answering env) w userId userDoc siteName fd siteType sites2 hs2]
    simp only [syncSiteCreated_sites, syncSiteCreated_users]
    exact ⟨rfl, trivial, trivial⟩
  | error e =>
    have hs2 : saveSite w.sites
        (newSite (answering env) userId siteName fd siteType (answering env).randomUUID) =
          .error e := by rw [hnew]; exact hs
    unfold saveAndRespond
    simp only [hs, hs2]
    cases e <;> exact ⟨rfl, rfl, rfl⟩

theorem createSiteRaw_answering (env : Env) (faults : Faults) (w : World) (userId : String)
    (body : RawCreateSiteBody) :
    (createSiteRaw env faults w userId body).2 =
        (createSiteRaw (answering env) faults w userId body).2 ∧
      (createSiteRaw env faults w userId body).1.sites =
        (createSiteRaw (answering env) faults w userId body).1.sites ∧
      (createSiteRaw env faults w userId body).1.users =
        (createSiteRaw (answering env) faults w userId body).1.users := by
  have e1 : resolveUser (answering env) w userId = resolveUser env w userId := rfl
  have e2 : ensureUser (answering env) w userId = ensureUser env w userId := rfl
  have e3 : formatRawDomains (answering env) = formatRawDomains env := rfl
  unfold createSiteRaw
  simp only [e1, e2, e3]
  by_cases h1 : (!truthy body.siteName || !jsTruthy body.domains || !truthy body.siteType) = true
  · simp only [if_pos h1]
    refine ⟨?_, ?_, ?_⟩ <;> first | rfl | trivial
  · simp only [if_neg h1]
    by_cases h2 : jsLength (body.siteName.getD "") > 15
    · simp only [if_pos h2]
      refine ⟨?_, ?_, ?_⟩ <;> first | rfl | trivial
    · simp only [if_neg h2]
      by_cases h3 : (!siteTypes.contains (body.siteType.getD "")) = true
      · simp only [if_pos h3]
        refine ⟨?_, ?_, ?_⟩ <;> first | rfl | trivial
      · simp only [if_neg h3]
        by_cases h4 : (countSites (ensureUser env w userId).sites userId : Int) ≥
            (resolveUser env w userId).maxSites
        · simp only [if_pos h4]
          refine ⟨?_, ?_, ?_⟩ <;> first | rfl | trivial
        · simp only [if_neg h4]
          cases hf : body.domains.bind (formatRawDomains env) with
          | none => exact ⟨rfl, rfl, rfl⟩
          | some fd =>
            simp only
            cases hc : checkDomains (ensureUser env w userId).sites fd with
            | some r => exact ⟨rfl, rfl, rfl⟩
            | none =>
              simp only
              exact saveAndRespond_answering env _ userId _ _ fd _

/-- C16: the synchronisation of the claims is best-effort.  The answer of
createSite and the Site and User collections it leaves are those of the same
call with an identity provider that answers, whatever fails in reading or
writing the claims.  If the request reaches `site.save()` and the save
succeeds, createSite answers the success body (`data` and `token = 'reload'`)
and the store holds the sites it held and the new Site, also when reading or
writing the claims fails, in which case the claims are as before.  If the user
document exists, setEmailNotifications answers success with the updated flag
and the document carries it, also when the update of the claims fails. -/
theorem c16_claims_sync_best_effort (env : Env) (faults : Faults) (w : World)
    (userId : String) (body : RawCreateSiteBody) (emailBody : EmailBody) :
    ((createSiteRaw env faults w userId body).2 =
        (createSiteRaw (answering env) faults w userId body).2 ∧
      (createSiteRaw env faults w userId body).1.sites =
        (createSiteRaw (answering env) faults w userId body).1.sites ∧
      (createSiteRaw env faults w userId body).1.users =
        (createSiteRaw (answering env) faults w userId body).1.users) ∧
    (∀ (siteName siteType : String) (domains : List String) (saved : List Site),
      body = ⟨some siteName, some (.arr (domains.map Json.str)), some siteType⟩ →
      siteName ≠ "" → jsLength siteName ≤ 15 → siteType ∈ siteTypes →
      (countSites w.sites userId : Int) < (resolveUser env w userId).maxSites →
      checkDomains w.sites (formatDomains env domains) = none →
      saveSite w.sites
        (newSite env userId siteName (formatDomains env domains) siteType env.randomUUID) =
          .ok saved →
      (createSiteRaw env faults w userId body).2 =
          .ok [("data", .str env.randomUUID), ("token", .str "reload")] ∧
        (createSiteRaw env faults w userId body).1.sites =
          w.sites ++
            [newSite env userId siteName (formatDomains env domains) siteType
              env.randomUUID] ∧
        ((env.getUserFails = true ∨ env.setClaimsFails = true) →
          (createSiteRaw env faults w userId body).1.claims = w.claims)) ∧
    (∀ u : User, findUser w.users userId = some u →
      (setEmailNotifications env w userId emailBody).2 =
          .ok [("success", .bool true),
            ("emailNotificationsEnabled", .bool (jsTruthy emailBody.enabled)),
            ("token", .str "reload")] ∧
        (findUser (setEmailNotifications env w userId emailBody).1.users userId).map
            (fun x => x.emailNotificationsEnabled) = some (jsTruthy emailBody.enabled) ∧
        ((env.getUserFails = true ∨ env.setClaimsFails = true) →
          (setEmailNotifications env w userId emailBody).1.claims = w.claims)) := by
  refine ⟨createSiteRaw_answering env faults w userId body, ?_, ?_⟩
  · rintro siteName siteType domains saved rfl hname hlen htype hquota hdom hsave
    have hlink := createSiteRaw_strings env faults w userId (some siteName) (some siteType)
      (some domains)
    simp only [Option.map_some'] at hlink
    have hres : createSiteRaw env faults w userId
        ⟨some siteName, some (.arr (domains.map Json.str)), some siteType⟩ =
        (syncSiteCreated env { ensureUser env w userId with sites := saved } userId
            (resolveUser env w userId) siteName
            (newSite env userId siteName (formatDomains env domains) siteType env.randomUUID)
            (countSites saved userId),
          .ok [("data", .str env.randomUUID), ("token", .str "reload")]) := by
      rw [hlink, createSite_present env w userId _ (truthy_some _ hname) (by simp)
        (truthy_some _ (siteType_ne_empty _ htype))]
      simp only [Option.getD_some]
      rw [if_neg (by omega), if_neg (by rw [not_contains_siteTypes]; exact not_not.2 htype),
        if_neg (by omega), hdom]
      simp only
      exact saveAndRespond_saved env _ userId _ siteName _ siteType saved
        (by rw [ensureUser_sites]; exact hsave)
    rw [hres]
    refine ⟨rfl, ?_, ?_⟩
    · simp only [syncSiteCreated_sites]
      exact saveSite_ok _ _ _ hsave
    · intro hf
      simp only
      rw [syncSiteCreated_fail _ _ _ _ _ _ _ hf]
      exact ensureUser_claims env w userId
  · intro u hu
    refine ⟨by rw [setEmailNotifications_found env w userId emailBody u hu], ?_, ?_⟩
    · rw [setEmailNotifications_user env w userId emailBody u hu]
      rfl
    · intro hf
      rw [setEmailNotifications_found env w userId emailBody u hu]
      simp only
      rw [syncEmail_fail _ _ _ _ _ hf]

/-- C16 (witness): the identity provider does not answer; the first site of
`u1` is saved and answered all the same, and `u1` in the store with a full
history enables its email notifications. -/
theorem c16_claims_sync_best_effort_witness :
    ((createSiteRaw failingEnv noFaults emptyWorld "u1"
        ⟨some "Shop", some (.arr (["shop.example.com"].map Json.str)), some "vitrine"⟩).2 =
        .ok [("data", .str failingEnv.randomUUID), ("token", .str "reload")] ∧
      (createSiteRaw failingEnv noFaults emptyWorld "u1"
        ⟨some "Shop", some (.arr (["shop.example.com"].map Json.str)), some "vitrine"⟩).1.sites =
        emptyWorld.sites ++
          [newSite failingEnv "u1" "Shop" (formatDomains failingEnv ["shop.example.com"])
            "vitrine" failingEnv.randomUUID] ∧
      ((failingEnv.getUserFails = true ∨ failingEnv.setClaimsFails = true) →
        (createSiteRaw failingEnv noFaults emptyWorld "u1"
          ⟨some "Shop", some (.arr (["shop.example.com"].map Json.str)),
            some "vitrine"⟩).1.claims = emptyWorld.claims)) ∧
      (setEmailNotifications failingEnv worldFullHistory "u1" ⟨some (.bool true)⟩).2 =
        .ok [("success", .bool true),
          ("emailNotificationsEnabled", .bool (jsTruthy (some (.bool true)))),
          ("token", .str "reload")] :=
  ⟨(c16_claims_sync_best_effort failingEnv noFaults emptyWorld "u1"
      ⟨some "Shop", some (.arr (["shop.example.com"].map Json.str)), some "vitrine"⟩
      ⟨none⟩).2.1 "Shop" "vitrine" ["shop.example.com"]
      [newSite failingEnv "u1" "Shop" (formatDomains failingEnv ["shop.example.com"]) "vitrine"
        failingEnv.randomUUID]
      rfl (by decide) (by decide) (by decide) (by decide) rfl rfl,
    ((c16_claims_sync_best_effort failingEnv noFaults worldFullHistory "u1" ⟨none, none, none⟩
      ⟨some (.bool true)⟩).2.2 _ rfl).1⟩

end HonoRender
